import Mathlib

/-!
# Solve-stage controller of PaStiX (sopalin/pastix_task_solve.c)

Shallow embedding of the five public operations of the file

* pastix_subtask_applyorder
* pastix_subtask_trsm
* pastix_subtask_diag
* pastix_subtask_solve
* pastix_task_solve

The numerical kernels (bvec_Xlapmr, sopalin_Xtrsm, sopalin_Xdiag), the CUDA
runtime and the clock are external to the file.  Every call of an external
routine is recorded, in order, in the state; the effect of a numerical kernel
on the right-hand-side block is a parameter of the development, and a kernel
changes nothing but that block.  A NULL instance is the value none, a NULL
address is 0.
-/

namespace Pastix

/-! ## Enumerations of the public API (declared in headers outside the file) -/

/-- Modelled from the spec: the enumeration pastix_coeftype_t is declared in a
header that is not part of the sources.  The four arithmetic types are the
case labels used by the switches of the file; every other value of the
underlying integer (PastixPattern for instance) matches no case label and is
represented by the last constructor. -/
inductive pastix_coeftype_t where
  | PastixFloat
  | PastixDouble
  | PastixComplex32
  | PastixComplex64
  | unrecognized (tag : Int)
  deriving DecidableEq, Repr

/-- Modelled from the spec: the factorization kinds, the case labels of the
switch of pastix_subtask_solve; any other value of iparm[IPARM_FACTORIZATION]
matches no case label and is represented by the last constructor. -/
inductive pastix_factotype_t where
  | PastixFactLLT
  | PastixFactLLH
  | PastixFactLDLT
  | PastixFactLDLH
  | PastixFactLU
  | unrecognized (tag : Int)
  deriving DecidableEq, Repr

/-- Direction of a permutation. -/
inductive pastix_dir_t where
  | PastixDirForward
  | PastixDirBackward
  deriving DecidableEq, Repr

/-- Side of a triangular solve. -/
inductive pastix_side_t where
  | PastixLeft
  | PastixRight
  deriving DecidableEq, Repr

/-- Triangle of the factor used by a triangular solve. -/
inductive pastix_uplo_t where
  | PastixUpper
  | PastixLower
  | PastixUpperLower
  deriving DecidableEq, Repr

/-- Transposition mode of a triangular solve. -/
inductive pastix_trans_t where
  | PastixNoTrans
  | PastixTrans
  | PastixConjTrans
  deriving DecidableEq, Repr

/-- Diagonal mode of a triangular solve. -/
inductive pastix_diag_t where
  | PastixNonUnit
  | PastixUnit
  deriving DecidableEq, Repr

open pastix_coeftype_t pastix_factotype_t pastix_dir_t pastix_side_t
open pastix_uplo_t pastix_trans_t pastix_diag_t

/-! ## Constants -/

/-- Modelled from the spec: status code of a successful call (api.h is not part
of the sources). -/
def PASTIX_SUCCESS : Int := 0

/-- Modelled from the spec: status code BadParameter (api.h is not part of the
sources). -/
def PASTIX_ERR_BADPARAMETER : Int := 7

/-- The constant EXIT_SUCCESS of the C library. -/
def EXIT_SUCCESS : Int := 0

/-- Modelled from the spec: bit of the step mask set once the assembly stage
(pastix_subtask_csc2bcsc) has run. -/
def STEP_CSC2BCSC : Nat := 1 <<< 4

/-- Modelled from the spec: bit of the step mask set once the numerical
factorization (pastix_task_numfact) has run. -/
def STEP_NUMFACT : Nat := 1 <<< 6

/-- Modelled from the spec: the lowest verbosity level. -/
def PastixVerboseNot : Int := 0

/-- Size in bytes of a double. -/
def sizeof_double : Nat := 8

/-- The conversion of a pastix_int_t to the C type int, 32 bits wide in two's
complement: a value that fits is kept, any other one is reduced modulo 2^32,
as the compilers the file builds with do.  With a 32 bits pastix_int_t every
value fits. -/
def int_of_pastix_int (v : Int) : Int :=
  (v + 2147483648) % 4294967296 - 2147483648

/-! ## Data model -/

/-- The fields of pastix_bcsc_t read by the file. -/
structure pastix_bcsc_t where
  flttype : pastix_coeftype_t
  gN : Int
  deriving DecidableEq, Repr

/-- The fields of pastix_order_t read by the file; peritab is the table the
pointer designates. -/
structure pastix_order_t where
  baseval : Int
  peritab : List Int
  deriving DecidableEq, Repr

/-- The fields of spmatrix_t used by the staging block.  Pointers are
addresses, 0 being NULL; n and nnzexp are the non-negative sizes of a
well-formed descriptor. -/
structure spmatrix_t where
  n : Nat
  gnnz : Nat
  nnzexp : Nat
  values : Nat
  valuesGPU : Nat
  colptrGPU : Nat
  rowptrGPU : Nat
  deriving DecidableEq, Repr

/-- The fields of pastix_data_t used by the file.  The entries of iparm and
dparm that the file reads or writes are separate fields; bcsc, ordemesh and
csc are the objects the pointers of the same name designate.  The solve time
is a value that is stored and printed only, hence kept as an integer number
of clock ticks. -/
structure pastix_data_t where
  steps : Nat
  iparm_FACTORIZATION : pastix_factotype_t
  iparm_APPLYPERM_WS : Int
  iparm_GPU_NBR : Int
  iparm_VERBOSE : Int
  dparm_SOLV_TIME : Int
  bcsc : pastix_bcsc_t
  ordemesh : pastix_order_t
  solvmatr : Nat
  cublas_handle : Nat
  cublas_stat : Nat
  csc : spmatrix_t
  colptrPERM : Nat
  rowptrPERM : Nat
  streamGPU : Nat
  deriving DecidableEq, Repr

/-- The local structure sopalin_data_t handed to the solve kernels. -/
structure sopalin_data_t where
  solvmtx : Nat
  cublas_handle : Nat
  cublas_stat : Nat
  deriving DecidableEq, Repr

/-- Precision letter of a kernel: s, d, c, z as in sopalin_strsm,
sopalin_dtrsm, sopalin_ctrsm, sopalin_ztrsm. -/
inductive Precision where
  | s
  | d
  | c
  | z
  deriving DecidableEq, Repr

/-- One call of an external numerical kernel with its arguments:
bvec_Xlapmr( ts, dir, m, n, b, ldb, perm ),
sopalin_Xtrsm( pastix_data, side, uplo, trans, diag, sopalin_data, nrhs, b, ldb ),
sopalin_Xdiag( pastix_data, sopalin_data, nrhs, b, ldb ). -/
inductive KernelCall where
  | lapmr (p : Precision) (ts : Int) (dir : pastix_dir_t) (m n : Int) (b : Nat)
      (ldb : Int) (perm : List Int)
  | trsm (p : Precision) (side : pastix_side_t) (uplo : pastix_uplo_t)
      (trans : pastix_trans_t) (diag : pastix_diag_t) (sd : sopalin_data_t)
      (nrhs : Int) (b : Nat) (ldb : Int)
  | diag (p : Precision) (sd : sopalin_data_t) (nrhs : Int) (b : Nat) (ldb : Int)
  deriving DecidableEq, Repr

/-- One call of one of the three dispatching operations of the file, with the
arguments it was given (the instance apart). -/
inductive SubCall where
  | applyorder (flttype : pastix_coeftype_t) (dir : pastix_dir_t) (m n : Int)
      (b : Nat) (ldb : Int)
  | trsm (flttype : pastix_coeftype_t) (side : pastix_side_t) (uplo : pastix_uplo_t)
      (trans : pastix_trans_t) (diag : pastix_diag_t) (nrhs : Int) (b : Nat) (ldb : Int)
  | diag (flttype : pastix_coeftype_t) (nrhs : Int) (b : Nat) (ldb : Int)
  deriving DecidableEq, Repr

/-- A line written to a stream. -/
inductive Output where
  | errorPrint (msg : String)
  | stderr (msg : String)
  | printf (msg : String)
  | time_solv (t : Int)
  deriving DecidableEq, Repr

/-- One call cudaMemcpyAsync( dst, src, count, cudaMemcpyHostToDevice, stream ). -/
structure MemcpyCall where
  dst : Nat
  src : Nat
  count : Nat
  stream : Nat
  deriving DecidableEq, Repr

/-- One call createLightSpMV( n, gnnz, colptrGPU, rowptrGPU, values ). -/
structure SpMVCall where
  n : Nat
  gnnz : Nat
  colptrGPU : Nat
  rowptrGPU : Nat
  values : Nat
  deriving DecidableEq, Repr

/-- The memory zone of a device: base is the address memory->base. -/
structure zone_malloc_t where
  base : Nat
  deriving DecidableEq, Repr

/-- The field of gpu_device_t read by the file. -/
structure gpu_device_t where
  memory : zone_malloc_t
  deriving DecidableEq, Repr

/-- The state outside the solver instance: the content of the right-hand-side
block b points to (an abstract value of type R), the two globals gpu_device and
gpu_base of the file, and the record, in order, of every external call made so
far: kernels for the numerical kernels, out for the messages, copies for
cudaMemcpyAsync and spmv for createLightSpMV.  The field subcalls is not a
variable of the program: it records each entry in pastix_subtask_applyorder,
pastix_subtask_trsm and pastix_subtask_diag with the arguments received, so
that the sequence of calls issued by a caller can be stated. -/
structure World (R : Type) where
  rhs : R
  gpu_device : Option gpu_device_t
  gpu_base : Nat
  kernels : List KernelCall
  subcalls : List SubCall
  out : List Output
  copies : List MemcpyCall
  spmv : List SpMVCall

/-- What the file takes from its environment: the effect of a kernel call on
the right-hand-side block, the value clockVal(timer) measured around the solve
sequence, whether the file is compiled with PASTIX_WITH_CUDA, the result of
getenv("PASTIX_REFINE_GPU"), the two device queries of the runtime, and the
size of pastix_int_t. -/
structure Env (R : Type) where
  kernel : pastix_data_t → KernelCall → R → R
  clockVal : Int
  PASTIX_WITH_CUDA : Bool
  PASTIX_REFINE_GPU : Option (List Char)
  parsec_devices_enabled : Int
  parsec_devices_get : Int → Option gpu_device_t
  sizeof_pastix_int_t : Nat

variable {R : Type}

/-- Write a message with errorPrint. -/
def World.errorPrint (w : World R) (msg : String) : World R :=
  { w with out := w.out ++ [Output.errorPrint msg] }

/-- Record the entry in one of the dispatching operations. -/
def World.enter (w : World R) (c : SubCall) : World R :=
  { w with subcalls := w.subcalls ++ [c] }

/-- Run an external kernel: the call is recorded and the block is transformed
by the kernel. -/
def World.run (E : Env R) (pastix_data : pastix_data_t) (w : World R) (k : KernelCall) :
    World R :=
  { w with rhs := E.kernel pastix_data k w.rhs, kernels := w.kernels ++ [k] }

/-- The local sopalin_data filled from the instance. -/
def mk_sopalin_data (pastix_data : pastix_data_t) : sopalin_data_t :=
  { solvmtx := pastix_data.solvmatr
    cublas_handle := pastix_data.cublas_handle
    cublas_stat := pastix_data.cublas_stat }

/-! ## The operations -/

/-- The function pastix_subtask_applyorder, lines 120 to 173.  A NULL
pastix_data is none, a NULL b is the address 0.  The local ts is declared
int, so that the entry of iparm, a pastix_int_t, is converted to int when it
is assigned to it. -/
def pastix_subtask_applyorder (E : Env R) (w : World R) (pastix_data : Option pastix_data_t)
    (flttype : pastix_coeftype_t) (dir : pastix_dir_t) (m n : Int) (b : Nat) (ldb : Int) :
    Int × World R :=
  let w := w.enter (SubCall.applyorder flttype dir m n b ldb)
  match pastix_data with
  | none =>
    (PASTIX_ERR_BADPARAMETER,
      w.errorPrint "pastix_subtask_applyorder: wrong pastix_data parameter")
  | some pd =>
    if b = 0 then
      (PASTIX_ERR_BADPARAMETER, w.errorPrint "pastix_subtask_applyorder: wrong b parameter")
    else if pd.steps &&& STEP_CSC2BCSC = 0 then
      (PASTIX_ERR_BADPARAMETER, w.errorPrint
        "pastix_subtask_applyorder: All steps from pastix_task_init() to pastix_subtask_csc2bcsc() have to be called before calling this function")
    else if pd.ordemesh.baseval ≠ 0 then
      (PASTIX_ERR_BADPARAMETER,
        w.errorPrint "pastix_subtask_applyorder: ordermesh must be 0-based")
    else
      let ts := int_of_pastix_int pd.iparm_APPLYPERM_WS
      let perm := pd.ordemesh.peritab
      match flttype with
      | PastixComplex64 =>
        (PASTIX_SUCCESS, w.run E pd (KernelCall.lapmr Precision.z ts dir m n b ldb perm))
      | PastixComplex32 =>
        (PASTIX_SUCCESS, w.run E pd (KernelCall.lapmr Precision.c ts dir m n b ldb perm))
      | PastixFloat =>
        (PASTIX_SUCCESS, w.run E pd (KernelCall.lapmr Precision.s ts dir m n b ldb perm))
      | _ =>
        (PASTIX_SUCCESS, w.run E pd (KernelCall.lapmr Precision.d ts dir m n b ldb perm))

/-- The function pastix_subtask_trsm, lines 221 to 273. -/
def pastix_subtask_trsm (E : Env R) (w : World R) (pastix_data : Option pastix_data_t)
    (flttype : pastix_coeftype_t) (side : pastix_side_t) (uplo : pastix_uplo_t)
    (trans : pastix_trans_t) (diag : pastix_diag_t) (nrhs : Int) (b : Nat) (ldb : Int) :
    Int × World R :=
  let w := w.enter (SubCall.trsm flttype side uplo trans diag nrhs b ldb)
  match pastix_data with
  | none =>
    (PASTIX_ERR_BADPARAMETER, w.errorPrint "pastix_subtask_trsm: wrong pastix_data parameter")
  | some pd =>
    if b = 0 then
      (PASTIX_ERR_BADPARAMETER, w.errorPrint "pastix_subtask_trsm: wrong b parameter")
    else if pd.steps &&& STEP_NUMFACT = 0 then
      (PASTIX_ERR_BADPARAMETER, w.errorPrint
        "pastix_subtask_trsm: All steps from pastix_task_init() to pastix_task_numfact() have to be called before calling this function")
    else
      let sopalin_data := mk_sopalin_data pd
      match flttype with
      | PastixComplex64 =>
        (PASTIX_SUCCESS, w.run E pd
          (KernelCall.trsm Precision.z side uplo trans diag sopalin_data nrhs b ldb))
      | PastixComplex32 =>
        (PASTIX_SUCCESS, w.run E pd
          (KernelCall.trsm Precision.c side uplo trans diag sopalin_data nrhs b ldb))
      | PastixDouble =>
        let trans := if trans = PastixConjTrans then PastixTrans else trans
        (PASTIX_SUCCESS, w.run E pd
          (KernelCall.trsm Precision.d side uplo trans diag sopalin_data nrhs b ldb))
      | PastixFloat =>
        let trans := if trans = PastixConjTrans then PastixTrans else trans
        (PASTIX_SUCCESS, w.run E pd
          (KernelCall.trsm Precision.s side uplo trans diag sopalin_data nrhs b ldb))
      | pastix_coeftype_t.unrecognized _ =>
        (PASTIX_SUCCESS,
          { w with out := w.out ++ [Output.stderr "Unknown floating point arithmetic"] })

/-- The function pastix_subtask_diag, lines 309 to 352. -/
def pastix_subtask_diag (E : Env R) (w : World R) (pastix_data : Option pastix_data_t)
    (flttype : pastix_coeftype_t) (nrhs : Int) (b : Nat) (ldb : Int) : Int × World R :=
  let w := w.enter (SubCall.diag flttype nrhs b ldb)
  match pastix_data with
  | none =>
    (PASTIX_ERR_BADPARAMETER, w.errorPrint "pastix_subtask_diag: wrong pastix_data parameter")
  | some pd =>
    if b = 0 then
      (PASTIX_ERR_BADPARAMETER, w.errorPrint "pastix_subtask_diag: wrong b parameter")
    else if pd.steps &&& STEP_NUMFACT = 0 then
      (PASTIX_ERR_BADPARAMETER, w.errorPrint
        "pastix_subtask_trsm: All steps from pastix_task_init() to pastix_task_numfact() have to be called before calling this function")
    else
      let sopalin_data := mk_sopalin_data pd
      match flttype with
      | PastixComplex64 =>
        (PASTIX_SUCCESS, w.run E pd (KernelCall.diag Precision.z sopalin_data nrhs b ldb))
      | PastixComplex32 =>
        (PASTIX_SUCCESS, w.run E pd (KernelCall.diag Precision.c sopalin_data nrhs b ldb))
      | PastixDouble =>
        (PASTIX_SUCCESS, w.run E pd (KernelCall.diag Precision.d sopalin_data nrhs b ldb))
      | PastixFloat =>
        (PASTIX_SUCCESS, w.run E pd (KernelCall.diag Precision.s sopalin_data nrhs b ldb))
      | pastix_coeftype_t.unrecognized _ =>
        (PASTIX_SUCCESS,
          { w with out := w.out ++ [Output.stderr "Unknown floating point arithmetic"] })

/-- The block of the cases PastixFactLLH and PastixFactLLT of the switch of
pastix_subtask_solve, lines 421 to 437; trans is the local variable, set to
PastixConjTrans by the case PastixFactLLH before it falls through.  The calls
of dump_rhs do nothing outside a debug build and write files only in one. -/
def solve_block_LLT (E : Env R) (w : World R) (pd : pastix_data_t) (trans : pastix_trans_t)
    (nrhs : Int) (b : Nat) (ldb : Int) : World R :=
  let w := (pastix_subtask_trsm E w (some pd) pd.bcsc.flttype
    PastixLeft PastixLower PastixNoTrans PastixNonUnit nrhs b ldb).2
  (pastix_subtask_trsm E w (some pd) pd.bcsc.flttype
    PastixLeft PastixLower trans PastixNonUnit nrhs b ldb).2

/-- The block of the cases PastixFactLDLH and PastixFactLDLT, lines 444 to 464. -/
def solve_block_LDLT (E : Env R) (w : World R) (pd : pastix_data_t) (trans : pastix_trans_t)
    (nrhs : Int) (b : Nat) (ldb : Int) : World R :=
  let w := (pastix_subtask_trsm E w (some pd) pd.bcsc.flttype
    PastixLeft PastixLower PastixNoTrans PastixUnit nrhs b ldb).2
  let w := (pastix_subtask_diag E w (some pd) pd.bcsc.flttype nrhs b ldb).2
  (pastix_subtask_trsm E w (some pd) pd.bcsc.flttype
    PastixLeft PastixLower trans PastixUnit nrhs b ldb).2

/-- The block of the case PastixFactLU and of the default label, lines 466 to 479. -/
def solve_block_LU (E : Env R) (w : World R) (pd : pastix_data_t)
    (nrhs : Int) (b : Nat) (ldb : Int) : World R :=
  let w := (pastix_subtask_trsm E w (some pd) pd.bcsc.flttype
    PastixLeft PastixLower PastixNoTrans PastixUnit nrhs b ldb).2
  (pastix_subtask_trsm E w (some pd) pd.bcsc.flttype
    PastixLeft PastixUpper PastixNoTrans PastixNonUnit nrhs b ldb).2

/-- The function pastix_subtask_solve, lines 388 to 493.  The result holds the
status, the instance after the call and the state after the call. -/
def pastix_subtask_solve (E : Env R) (w : World R) (pastix_data : Option pastix_data_t)
    (nrhs : Int) (b : Nat) (ldb : Int) : Int × Option pastix_data_t × World R :=
  match pastix_data with
  | none =>
    (PASTIX_ERR_BADPARAMETER, none,
      w.errorPrint "pastix_task_solve: wrong pastix_data parameter")
  | some pd =>
    if pd.steps &&& STEP_NUMFACT = 0 then
      (PASTIX_ERR_BADPARAMETER, some pd, w.errorPrint
        "pastix_task_solve: All steps from pastix_task_init() to pastix_task_numfact() have to be called before calling this function")
    else
      let trans := PastixTrans
      let w :=
        match pd.iparm_FACTORIZATION with
        | PastixFactLLH => solve_block_LLT E w pd PastixConjTrans nrhs b ldb
        | PastixFactLLT => solve_block_LLT E w pd trans nrhs b ldb
        | PastixFactLDLH => solve_block_LDLT E w pd PastixConjTrans nrhs b ldb
        | PastixFactLDLT => solve_block_LDLT E w pd trans nrhs b ldb
        | _ => solve_block_LU E w pd nrhs b ldb
      let pd := { pd with dparm_SOLV_TIME := E.clockVal }
      let w :=
        if pd.iparm_VERBOSE > PastixVerboseNot then
          { w with out := w.out ++ [Output.time_solv pd.dparm_SOLV_TIME] }
        else w
      (EXIT_SUCCESS, some pd, w)

/-- The condition of line 543: a positive number of devices is configured and
the environment variable PASTIX_REFINE_GPU is set to a text starting with 1. -/
def refine_gpu_requested (E : Env R) (pd : pastix_data_t) : Bool :=
  decide (pd.iparm_GPU_NBR > 0) &&
    (match E.PASTIX_REFINE_GPU with
     | none => false
     | some s => s.head? == some '1')

/-- The loop of lines 549 to 551: every step assigns parsec_devices_get(i+2)
to gpu_device, for i from 0 below ndevices - 2. -/
def find_gpu_device (E : Env R) (cur : Option gpu_device_t) : Option gpu_device_t :=
  let ndevices := E.parsec_devices_enabled - 2
  (List.range ndevices.toNat).foldl (fun _ i => E.parsec_devices_get ((i : Int) + 2)) cur

/-- The lines 546 to 552: the devices are searched only when the global
gpu_device is NULL. -/
def resolve_gpu_device (E : Env R) (w : World R) : Option gpu_device_t :=
  if w.gpu_device = none then find_gpu_device E w.gpu_device else w.gpu_device

/-- The staging block of pastix_task_solve, lines 543 to 584.  The result is
none when the block dereferences a NULL gpu_device.  Addresses are natural
numbers and the sums stay inside the arena, so that no address wraps. -/
def pastix_task_solve_staging (E : Env R) (w : World R) (pd : pastix_data_t) :
    Option (pastix_data_t × World R) :=
  if refine_gpu_requested E pd ∧ E.PASTIX_WITH_CUDA = true then
    let spm := pd.csc
    let w := { w with gpu_device := resolve_gpu_device E w }
    let w := { w with out := w.out ++ [Output.printf "Sending CSC data to GPU"] }
    let w := { w with spmv := w.spmv ++
      [SpMVCall.mk spm.n spm.gnnz spm.colptrGPU spm.rowptrGPU spm.values] }
    match w.gpu_device with
    | none => none
    | some dev =>
      let w := { w with gpu_base := dev.memory.base }
      let (spm, w) :=
        if spm.valuesGPU = 0 then
          let spm := { spm with valuesGPU := w.gpu_base }
          let w := { w with gpu_base := w.gpu_base + spm.nnzexp * sizeof_double }
          (spm, { w with copies := w.copies ++
            [MemcpyCall.mk spm.valuesGPU spm.values (spm.nnzexp * sizeof_double)
               pd.streamGPU] })
        else (spm, w)
      let (spm, w) :=
        if spm.colptrGPU = 0 then
          let spm := { spm with colptrGPU := w.gpu_base }
          let w := { w with gpu_base := w.gpu_base + (spm.n + 1) * E.sizeof_pastix_int_t }
          (spm, { w with copies := w.copies ++
            [MemcpyCall.mk spm.colptrGPU pd.colptrPERM
               ((spm.n + 1) * E.sizeof_pastix_int_t) pd.streamGPU] })
        else (spm, w)
      let (spm, w) :=
        if spm.rowptrGPU = 0 then
          let spm := { spm with rowptrGPU := w.gpu_base }
          let w := { w with gpu_base := w.gpu_base + spm.nnzexp * E.sizeof_pastix_int_t }
          (spm, { w with copies := w.copies ++
            [MemcpyCall.mk spm.rowptrGPU pd.rowptrPERM
               (spm.nnzexp * E.sizeof_pastix_int_t) pd.streamGPU] })
        else (spm, w)
      some ({ pd with csc := spm }, w)
  else
    some (pd, w)

/-- The function pastix_task_solve, lines 526 to 597.  The result is none when
the staging block dereferences a NULL gpu_device; otherwise it holds the
status, the instance after the call and the state after the call. -/
def pastix_task_solve (E : Env R) (w : World R) (pastix_data : Option pastix_data_t)
    (nrhs : Int) (b : Nat) (ldb : Int) : Option (Int × Option pastix_data_t × World R) :=
  match pastix_data with
  | none =>
    some (PASTIX_ERR_BADPARAMETER, none,
      w.errorPrint "pastix_task_solve: wrong pastix_data parameter")
  | some pd =>
    match pastix_task_solve_staging E w pd with
    | none => none
    | some (pd, w) =>
      let bcsc := pd.bcsc
      let w := (pastix_subtask_applyorder E w (some pd) bcsc.flttype
        PastixDirForward bcsc.gN nrhs b ldb).2
      let r := pastix_subtask_solve E w (some pd) nrhs b ldb
      let w := (pastix_subtask_applyorder E r.2.2 r.2.1 bcsc.flttype
        PastixDirBackward bcsc.gN nrhs b ldb).2
      some (EXIT_SUCCESS, r.2.1, w)

/-! ## The table of the specification -/

/-- The calls of the dispatching operations issued by pastix_subtask_solve for
a factorization kind: the table of section 4.4 of the specification, every
solve with side Left; a value that is none of the five kinds takes the LU row,
as the default label of the switch does. -/
def solve_sequence (kind : pastix_factotype_t) (flttype : pastix_coeftype_t)
    (nrhs : Int) (b : Nat) (ldb : Int) : List SubCall :=
  match kind with
  | PastixFactLLT =>
    [SubCall.trsm flttype PastixLeft PastixLower PastixNoTrans PastixNonUnit nrhs b ldb,
     SubCall.trsm flttype PastixLeft PastixLower PastixTrans PastixNonUnit nrhs b ldb]
  | PastixFactLLH =>
    [SubCall.trsm flttype PastixLeft PastixLower PastixNoTrans PastixNonUnit nrhs b ldb,
     SubCall.trsm flttype PastixLeft PastixLower PastixConjTrans PastixNonUnit nrhs b ldb]
  | PastixFactLDLT =>
    [SubCall.trsm flttype PastixLeft PastixLower PastixNoTrans PastixUnit nrhs b ldb,
     SubCall.diag flttype nrhs b ldb,
     SubCall.trsm flttype PastixLeft PastixLower PastixTrans PastixUnit nrhs b ldb]
  | PastixFactLDLH =>
    [SubCall.trsm flttype PastixLeft PastixLower PastixNoTrans PastixUnit nrhs b ldb,
     SubCall.diag flttype nrhs b ldb,
     SubCall.trsm flttype PastixLeft PastixLower PastixConjTrans PastixUnit nrhs b ldb]
  | _ =>
    [SubCall.trsm flttype PastixLeft PastixLower PastixNoTrans PastixUnit nrhs b ldb,
     SubCall.trsm flttype PastixLeft PastixUpper PastixNoTrans PastixNonUnit nrhs b ldb]

/-- The test of the four gates of pastix_subtask_applyorder: the instance or b
is NULL, the step mask lacks STEP_CSC2BCSC, or the ordering is not 0-based. -/
def applyorder_refuses (pastix_data : Option pastix_data_t) (b : Nat) : Prop :=
  match pastix_data with
  | none => True
  | some pd => b = 0 ∨ pd.steps &&& STEP_CSC2BCSC = 0 ∨ pd.ordemesh.baseval ≠ 0

/-- Whether a kernel call is a call of a permutation kernel bvec_Xlapmr. -/
def KernelCall.isLapmr : KernelCall → Bool
  | KernelCall.lapmr _ _ _ _ _ _ _ _ => true
  | _ => false

/-- The permutation kernel that pastix_subtask_applyorder selects for an
arithmetic type: PastixDouble shares its label with the default one. -/
def lapmr_precision : pastix_coeftype_t → Precision
  | PastixComplex64 => Precision.z
  | PastixComplex32 => Precision.c
  | PastixFloat => Precision.s
  | _ => Precision.d

/-- The kernel precision that the dispatcher of section 4.2 of the
specification associates with an arithmetic type: exactly four types are
recognized. -/
def kernel_precision : pastix_coeftype_t → Option Precision
  | PastixFloat => some Precision.s
  | PastixDouble => some Precision.d
  | PastixComplex32 => some Precision.c
  | PastixComplex64 => some Precision.z
  | pastix_coeftype_t.unrecognized _ => none

/-! ## Concrete inputs used to exercise the definitions -/

/-- An environment whose kernels count their runs in the block, with the
accelerator path compiled in and requested. -/
def countingEnv : Env Nat :=
  { kernel := fun _ _ r => r + 1
    clockVal := 42
    PASTIX_WITH_CUDA := true
    PASTIX_REFINE_GPU := some ['1']
    parsec_devices_enabled := 3
    parsec_devices_get := fun _ => some (gpu_device_t.mk (zone_malloc_t.mk 4096))
    sizeof_pastix_int_t := 4 }

/-- A state in which nothing has been called yet and both globals are NULL. -/
def freshWorld : World Nat :=
  { rhs := 0, gpu_device := none, gpu_base := 0, kernels := [], subcalls := [], out := [],
    copies := [], spmv := [] }

/-- A descriptor of a matrix of order 3 with 5 stored entries, not staged. -/
def sampleSpm : spmatrix_t :=
  { n := 3, gnnz := 5, nnzexp := 5, values := 1000, valuesGPU := 0, colptrGPU := 0,
    rowptrGPU := 0 }

/-- An instance of the given factorization kind and arithmetic type that went
through every stage up to the numerical factorization, with a 0-based
ordering and no accelerator device. -/
def sampleData (kind : pastix_factotype_t) (flttype : pastix_coeftype_t) : pastix_data_t :=
  { steps := STEP_CSC2BCSC ||| STEP_NUMFACT
    iparm_FACTORIZATION := kind
    iparm_APPLYPERM_WS := 1
    iparm_GPU_NBR := 0
    iparm_VERBOSE := 0
    dparm_SOLV_TIME := 0
    bcsc := { flttype := flttype, gN := 3 }
    ordemesh := { baseval := 0, peritab := [2, 0, 1] }
    solvmatr := 500
    cublas_handle := 0
    cublas_stat := 0
    csc := sampleSpm
    colptrPERM := 2000
    rowptrPERM := 3000
    streamGPU := 7 }

/-- The sample instance configured with one accelerator device. -/
def gpuData : pastix_data_t :=
  { sampleData PastixFactLU PastixDouble with iparm_GPU_NBR := 1 }

/-- The instance gpuData after a first run of the staging block. -/
def stagedData : pastix_data_t :=
  { gpuData with
    csc := { sampleSpm with valuesGPU := 4096, colptrGPU := 4136, rowptrGPU := 4152 } }

/-- The state after a first run of the staging block on gpuData from
freshWorld, in countingEnv. -/
def stagedWorld : World Nat :=
  { rhs := 0
    gpu_device := some (gpu_device_t.mk (zone_malloc_t.mk 4096))
    gpu_base := 4172
    kernels := []
    subcalls := []
    out := [Output.printf "Sending CSC data to GPU"]
    copies := [MemcpyCall.mk 4096 1000 40 7, MemcpyCall.mk 4136 2000 16 7,
      MemcpyCall.mk 4152 3000 20 7]
    spmv := [SpMVCall.mk 3 5 0 0 1000] }

/-- A second instance with its own descriptor, not staged, of a matrix of
order 2 with 4 stored entries. -/
def otherGpuData : pastix_data_t :=
  { gpuData with
    csc := { n := 2, gnnz := 4, nnzexp := 4, values := 5000, valuesGPU := 0, colptrGPU := 0,
             rowptrGPU := 0 }
    colptrPERM := 6000
    rowptrPERM := 7000 }

/-- The sample instance after the assembly stage and before the numerical
factorization. -/
def unfactoredData : pastix_data_t :=
  { sampleData PastixFactLU PastixDouble with steps := STEP_CSC2BCSC }

/-- The sample instance in a build with a 64 bits pastix_int_t, the entry
iparm[IPARM_APPLYPERM_WS] set to 2^32 + 1. -/
def wideFlagData : pastix_data_t :=
  { sampleData PastixFactLU PastixDouble with iparm_APPLYPERM_WS := 4294967297 }

/-! ## Calls recorded by the operations -/

theorem trsm_subcalls (E : Env R) (w : World R) (pastix_data : Option pastix_data_t)
    (flttype : pastix_coeftype_t) (side : pastix_side_t) (uplo : pastix_uplo_t)
    (trans : pastix_trans_t) (diag : pastix_diag_t) (nrhs : Int) (b : Nat) (ldb : Int) :
    (pastix_subtask_trsm E w pastix_data flttype side uplo trans diag nrhs b ldb).2.subcalls
      = w.subcalls ++ [SubCall.trsm flttype side uplo trans diag nrhs b ldb] := by
  unfold pastix_subtask_trsm
  cases pastix_data with
  | none => rfl
  | some pd => cases flttype <;> dsimp only <;> split_ifs <;> rfl

theorem diag_subcalls (E : Env R) (w : World R) (pastix_data : Option pastix_data_t)
    (flttype : pastix_coeftype_t) (nrhs : Int) (b : Nat) (ldb : Int) :
    (pastix_subtask_diag E w pastix_data flttype nrhs b ldb).2.subcalls
      = w.subcalls ++ [SubCall.diag flttype nrhs b ldb] := by
  unfold pastix_subtask_diag
  cases pastix_data with
  | none => rfl
  | some pd => cases flttype <;> dsimp only <;> split_ifs <;> rfl

theorem applyorder_subcalls (E : Env R) (w : World R) (pastix_data : Option pastix_data_t)
    (flttype : pastix_coeftype_t) (dir : pastix_dir_t) (m n : Int) (b : Nat) (ldb : Int) :
    (pastix_subtask_applyorder E w pastix_data flttype dir m n b ldb).2.subcalls
      = w.subcalls ++ [SubCall.applyorder flttype dir m n b ldb] := by
  unfold pastix_subtask_applyorder
  cases pastix_data with
  | none => rfl
  | some pd => cases flttype <;> dsimp only <;> split_ifs <;> rfl

theorem solve_block_LLT_subcalls (E : Env R) (w : World R) (pd : pastix_data_t)
    (trans : pastix_trans_t) (nrhs : Int) (b : Nat) (ldb : Int) :
    (solve_block_LLT E w pd trans nrhs b ldb).subcalls = w.subcalls ++
      [SubCall.trsm pd.bcsc.flttype PastixLeft PastixLower PastixNoTrans PastixNonUnit nrhs b ldb,
       SubCall.trsm pd.bcsc.flttype PastixLeft PastixLower trans PastixNonUnit nrhs b ldb] := by
  simp [solve_block_LLT, trsm_subcalls]

theorem solve_block_LDLT_subcalls (E : Env R) (w : World R) (pd : pastix_data_t)
    (trans : pastix_trans_t) (nrhs : Int) (b : Nat) (ldb : Int) :
    (solve_block_LDLT E w pd trans nrhs b ldb).subcalls = w.subcalls ++
      [SubCall.trsm pd.bcsc.flttype PastixLeft PastixLower PastixNoTrans PastixUnit nrhs b ldb,
       SubCall.diag pd.bcsc.flttype nrhs b ldb,
       SubCall.trsm pd.bcsc.flttype PastixLeft PastixLower trans PastixUnit nrhs b ldb] := by
  simp [solve_block_LDLT, trsm_subcalls, diag_subcalls]

theorem solve_block_LU_subcalls (E : Env R) (w : World R) (pd : pastix_data_t)
    (nrhs : Int) (b : Nat) (ldb : Int) :
    (solve_block_LU E w pd nrhs b ldb).subcalls = w.subcalls ++
      [SubCall.trsm pd.bcsc.flttype PastixLeft PastixLower PastixNoTrans PastixUnit nrhs b ldb,
       SubCall.trsm pd.bcsc.flttype PastixLeft PastixUpper PastixNoTrans PastixNonUnit nrhs b ldb] := by
  simp [solve_block_LU, trsm_subcalls]

theorem subtask_solve_subcalls (E : Env R) (w : World R) (pd : pastix_data_t)
    (nrhs : Int) (b : Nat) (ldb : Int) (h : pd.steps &&& STEP_NUMFACT ≠ 0) :
    (pastix_subtask_solve E w (some pd) nrhs b ldb).2.2.subcalls
      = w.subcalls ++ solve_sequence pd.iparm_FACTORIZATION pd.bcsc.flttype nrhs b ldb := by
  unfold pastix_subtask_solve
  simp only [h, if_false]
  cases hk : pd.iparm_FACTORIZATION <;>
    simp [solve_sequence, solve_block_LLT_subcalls, solve_block_LDLT_subcalls,
      solve_block_LU_subcalls] <;> split_ifs <;>
    simp [solve_sequence, solve_block_LLT_subcalls, solve_block_LDLT_subcalls,
      solve_block_LU_subcalls]

/-- C1: on an instance whose step mask contains STEP_NUMFACT, pastix_subtask_solve
calls, in this order and with side Left, the arithmetic type of the bcsc and
the nrhs, b and ldb of the caller: for LU, trsm(Lower, NoTrans, Unit) then
trsm(Upper, NoTrans, NonUnit); for LLT, trsm(Lower, NoTrans, NonUnit) then
trsm(Lower, Trans, NonUnit); for LLH, trsm(Lower, NoTrans, NonUnit) then
trsm(Lower, ConjTrans, NonUnit); for LDLT, trsm(Lower, NoTrans, Unit), diag,
trsm(Lower, Trans, Unit); for LDLH, trsm(Lower, NoTrans, Unit), diag,
trsm(Lower, ConjTrans, Unit); and it calls no other trsm or diag. -/
theorem subtask_solve_issues_table_sequence (E : Env R) (w : World R) (pd : pastix_data_t)
    (nrhs : Int) (b : Nat) (ldb : Int) (h : pd.steps &&& STEP_NUMFACT ≠ 0) :
    (pastix_subtask_solve E w (some { pd with iparm_FACTORIZATION := PastixFactLU })
        nrhs b ldb).2.2.subcalls = w.subcalls ++
      [SubCall.trsm pd.bcsc.flttype PastixLeft PastixLower PastixNoTrans PastixUnit nrhs b ldb,
       SubCall.trsm pd.bcsc.flttype PastixLeft PastixUpper PastixNoTrans PastixNonUnit
         nrhs b ldb] ∧
    (pastix_subtask_solve E w (some { pd with iparm_FACTORIZATION := PastixFactLLT })
        nrhs b ldb).2.2.subcalls = w.subcalls ++
      [SubCall.trsm pd.bcsc.flttype PastixLeft PastixLower PastixNoTrans PastixNonUnit
         nrhs b ldb,
       SubCall.trsm pd.bcsc.flttype PastixLeft PastixLower PastixTrans PastixNonUnit
         nrhs b ldb] ∧
    (pastix_subtask_solve E w (some { pd with iparm_FACTORIZATION := PastixFactLLH })
        nrhs b ldb).2.2.subcalls = w.subcalls ++
      [SubCall.trsm pd.bcsc.flttype PastixLeft PastixLower PastixNoTrans PastixNonUnit
         nrhs b ldb,
       SubCall.trsm pd.bcsc.flttype PastixLeft PastixLower PastixConjTrans PastixNonUnit
         nrhs b ldb] ∧
    (pastix_subtask_solve E w (some { pd with iparm_FACTORIZATION := PastixFactLDLT })
        nrhs b ldb).2.2.subcalls = w.subcalls ++
      [SubCall.trsm pd.bcsc.flttype PastixLeft PastixLower PastixNoTrans PastixUnit nrhs b ldb,
       SubCall.diag pd.bcsc.flttype nrhs b ldb,
       SubCall.trsm pd.bcsc.flttype PastixLeft PastixLower PastixTrans PastixUnit nrhs b ldb] ∧
    (pastix_subtask_solve E w (some { pd with iparm_FACTORIZATION := PastixFactLDLH })
        nrhs b ldb).2.2.subcalls = w.subcalls ++
      [SubCall.trsm pd.bcsc.flttype PastixLeft PastixLower PastixNoTrans PastixUnit nrhs b ldb,
       SubCall.diag pd.bcsc.flttype nrhs b ldb,
       SubCall.trsm pd.bcsc.flttype PastixLeft PastixLower PastixConjTrans PastixUnit
         nrhs b ldb] := by
  refine ⟨?_, ?_, ?_, ?_, ?_⟩ <;>
    (rw [subtask_solve_subcalls _ _ _ _ _ _ (by exact h)]; rfl)

/-- Witness of C1 on the sample instance, in double precision. -/
theorem subtask_solve_issues_table_sequence_witness :
    (sampleData PastixFactLU PastixDouble).steps &&& STEP_NUMFACT ≠ 0 ∧
    (pastix_subtask_solve countingEnv freshWorld
        (some (sampleData PastixFactLDLH PastixDouble)) 1 77 3).2.2.subcalls =
      [SubCall.trsm PastixDouble PastixLeft PastixLower PastixNoTrans PastixUnit 1 77 3,
       SubCall.diag PastixDouble 1 77 3,
       SubCall.trsm PastixDouble PastixLeft PastixLower PastixConjTrans PastixUnit 1 77 3] :=
  ⟨by decide,
   (subtask_solve_issues_table_sequence countingEnv freshWorld
      (sampleData PastixFactLU PastixDouble) 1 77 3 (by decide)).2.2.2.2⟩

/-! ## Calls refused by a gate -/

theorem trsm_refused (E : Env R) (w : World R) (pd : pastix_data_t)
    (flttype : pastix_coeftype_t) (side : pastix_side_t) (uplo : pastix_uplo_t)
    (trans : pastix_trans_t) (diag : pastix_diag_t) (nrhs : Int) (b : Nat) (ldb : Int)
    (h : b = 0 ∨ pd.steps &&& STEP_NUMFACT = 0) :
    (pastix_subtask_trsm E w (some pd) flttype side uplo trans diag nrhs b ldb).1
        = PASTIX_ERR_BADPARAMETER ∧
    (pastix_subtask_trsm E w (some pd) flttype side uplo trans diag nrhs b ldb).2.kernels
        = w.kernels ∧
    (pastix_subtask_trsm E w (some pd) flttype side uplo trans diag nrhs b ldb).2.rhs
        = w.rhs := by
  unfold pastix_subtask_trsm
  by_cases hb : b = 0
  · simp [hb, World.enter, World.errorPrint]
  · have hs : pd.steps &&& STEP_NUMFACT = 0 := h.resolve_left hb
    simp [hb, hs, World.enter, World.errorPrint]

theorem diag_refused (E : Env R) (w : World R) (pd : pastix_data_t)
    (flttype : pastix_coeftype_t) (nrhs : Int) (b : Nat) (ldb : Int)
    (h : b = 0 ∨ pd.steps &&& STEP_NUMFACT = 0) :
    (pastix_subtask_diag E w (some pd) flttype nrhs b ldb).1 = PASTIX_ERR_BADPARAMETER ∧
    (pastix_subtask_diag E w (some pd) flttype nrhs b ldb).2.kernels = w.kernels ∧
    (pastix_subtask_diag E w (some pd) flttype nrhs b ldb).2.rhs = w.rhs := by
  unfold pastix_subtask_diag
  by_cases hb : b = 0
  · simp [hb, World.enter, World.errorPrint]
  · have hs : pd.steps &&& STEP_NUMFACT = 0 := h.resolve_left hb
    simp [hb, hs, World.enter, World.errorPrint]

/-- C3: on an instance whose step mask lacks STEP_NUMFACT, for every
right-hand side, each of pastix_subtask_trsm, pastix_subtask_diag and
pastix_subtask_solve returns PASTIX_ERR_BADPARAMETER, runs no kernel and
leaves the block unchanged; pastix_subtask_solve leaves the instance, its
solve time included, as it was. -/
theorem solve_family_refused_before_numfact (E : Env R) (w : World R) (pd : pastix_data_t)
    (flttype : pastix_coeftype_t) (side : pastix_side_t) (uplo : pastix_uplo_t)
    (trans : pastix_trans_t) (diag : pastix_diag_t) (nrhs : Int) (b : Nat) (ldb : Int)
    (h : pd.steps &&& STEP_NUMFACT = 0) :
    ((pastix_subtask_trsm E w (some pd) flttype side uplo trans diag nrhs b ldb).1
        = PASTIX_ERR_BADPARAMETER ∧
     (pastix_subtask_trsm E w (some pd) flttype side uplo trans diag nrhs b ldb).2.kernels
        = w.kernels ∧
     (pastix_subtask_trsm E w (some pd) flttype side uplo trans diag nrhs b ldb).2.rhs
        = w.rhs) ∧
    ((pastix_subtask_diag E w (some pd) flttype nrhs b ldb).1 = PASTIX_ERR_BADPARAMETER ∧
     (pastix_subtask_diag E w (some pd) flttype nrhs b ldb).2.kernels = w.kernels ∧
     (pastix_subtask_diag E w (some pd) flttype nrhs b ldb).2.rhs = w.rhs) ∧
    ((pastix_subtask_solve E w (some pd) nrhs b ldb).1 = PASTIX_ERR_BADPARAMETER ∧
     (pastix_subtask_solve E w (some pd) nrhs b ldb).2.1 = some pd ∧
     (pastix_subtask_solve E w (some pd) nrhs b ldb).2.2.kernels = w.kernels ∧
     (pastix_subtask_solve E w (some pd) nrhs b ldb).2.2.rhs = w.rhs) := by
  refine ⟨trsm_refused E w pd flttype side uplo trans diag nrhs b ldb (Or.inr h),
    diag_refused E w pd flttype nrhs b ldb (Or.inr h), ?_⟩
  simp [pastix_subtask_solve, h, World.errorPrint]

/-- Witness of C3: the sample instance with only the assembly stage done. -/
theorem solve_family_refused_before_numfact_witness :
    ({ sampleData PastixFactLU PastixDouble with steps := STEP_CSC2BCSC }).steps
        &&& STEP_NUMFACT = 0 ∧
    (pastix_subtask_solve countingEnv freshWorld
        (some { sampleData PastixFactLU PastixDouble with steps := STEP_CSC2BCSC })
        1 77 3).1 = PASTIX_ERR_BADPARAMETER :=
  ⟨by decide,
   (solve_family_refused_before_numfact countingEnv freshWorld
      { sampleData PastixFactLU PastixDouble with steps := STEP_CSC2BCSC }
      PastixDouble PastixLeft PastixLower PastixNoTrans PastixUnit 1 77 3 (by decide)).2.2.1⟩

/-! ## The gate of pastix_subtask_applyorder -/

theorem applyorder_refused (E : Env R) (w : World R) (pastix_data : Option pastix_data_t)
    (flttype : pastix_coeftype_t) (dir : pastix_dir_t) (m n : Int) (b : Nat) (ldb : Int)
    (h : applyorder_refuses pastix_data b) :
    (pastix_subtask_applyorder E w pastix_data flttype dir m n b ldb).1
        = PASTIX_ERR_BADPARAMETER ∧
    (pastix_subtask_applyorder E w pastix_data flttype dir m n b ldb).2.kernels = w.kernels ∧
    (pastix_subtask_applyorder E w pastix_data flttype dir m n b ldb).2.rhs = w.rhs := by
  unfold pastix_subtask_applyorder
  cases pastix_data with
  | none => simp [World.enter, World.errorPrint]
  | some pd =>
    by_cases hb : b = 0
    · simp [hb, World.enter, World.errorPrint]
    · by_cases hs : pd.steps &&& STEP_CSC2BCSC = 0
      · simp [hb, hs, World.enter, World.errorPrint]
      · have hv : pd.ordemesh.baseval ≠ 0 := by
          rcases h with h | h | h
          · exact absurd h hb
          · exact absurd h hs
          · exact h
        simp [hb, hs, hv, World.enter, World.errorPrint]

theorem applyorder_accepted (E : Env R) (w : World R) (pd : pastix_data_t)
    (flttype : pastix_coeftype_t) (dir : pastix_dir_t) (m n : Int) (b : Nat) (ldb : Int)
    (h : ¬ applyorder_refuses (some pd) b) :
    (pastix_subtask_applyorder E w (some pd) flttype dir m n b ldb).1 = PASTIX_SUCCESS ∧
    ∃ p, (pastix_subtask_applyorder E w (some pd) flttype dir m n b ldb).2.kernels
        = w.kernels ++ [KernelCall.lapmr p (int_of_pastix_int pd.iparm_APPLYPERM_WS)
            dir m n b ldb pd.ordemesh.peritab] ∧
      (pastix_subtask_applyorder E w (some pd) flttype dir m n b ldb).2.rhs
        = E.kernel pd (KernelCall.lapmr p (int_of_pastix_int pd.iparm_APPLYPERM_WS)
            dir m n b ldb pd.ordemesh.peritab) w.rhs ∧
      p = (match flttype with
           | PastixComplex64 => Precision.z
           | PastixComplex32 => Precision.c
           | PastixFloat => Precision.s
           | _ => Precision.d) := by
  simp only [applyorder_refuses, not_or, not_not] at h
  obtain ⟨hb, hs, hv⟩ := h
  unfold pastix_subtask_applyorder
  cases flttype <;> simp [hb, hs, hv, World.enter, World.run]

theorem int_of_pastix_int_of_fits (v : Int)
    (h : -2147483648 ≤ v ∧ v < 2147483648) : int_of_pastix_int v = v := by
  unfold int_of_pastix_int
  omega

/-- C5, as stated, fails: on the sample instance with iparm[IPARM_APPLYPERM_WS]
set to 2^32 + 1, a value of a 64 bits pastix_int_t, the call passes the gate
and returns PASTIX_SUCCESS, but the permutation kernel receives 1, the entry
converted to the int ts, and not the entry itself. -/
theorem applyorder_narrows_workspace_flag :
    ((77 : Nat) ≠ 0 ∧ wideFlagData.steps &&& STEP_CSC2BCSC ≠ 0 ∧
      wideFlagData.ordemesh.baseval = 0 ∧ wideFlagData.iparm_APPLYPERM_WS = 4294967297) ∧
    (pastix_subtask_applyorder countingEnv freshWorld (some wideFlagData) PastixDouble
        PastixDirForward 3 1 77 3).1 = PASTIX_SUCCESS ∧
    (pastix_subtask_applyorder countingEnv freshWorld (some wideFlagData) PastixDouble
        PastixDirForward 3 1 77 3).2.kernels =
      [KernelCall.lapmr Precision.d 1 PastixDirForward 3 1 77 3 [2, 0, 1]] ∧
    (∀ p : Precision,
      (pastix_subtask_applyorder countingEnv freshWorld (some wideFlagData) PastixDouble
          PastixDirForward 3 1 77 3).2.kernels ≠
        freshWorld.kernels ++ [KernelCall.lapmr p wideFlagData.iparm_APPLYPERM_WS
          PastixDirForward 3 1 77 3 wideFlagData.ordemesh.peritab]) := by
  refine ⟨⟨by decide, by decide, by decide, by decide⟩, by decide, by decide, fun p => ?_⟩
  cases p <;> decide

/-- C5, amended: pastix_subtask_applyorder returns PASTIX_ERR_BADPARAMETER
exactly when the instance is NULL, or b is NULL, or the step mask lacks
STEP_CSC2BCSC, or the baseval of the ordering is not 0; when it does, no
permutation kernel is run and the block is unchanged; otherwise it returns
PASTIX_SUCCESS after one permutation kernel call that receives dir, m, n, b
and ldb of the caller, the peritab of the instance and
iparm[IPARM_APPLYPERM_WS] converted to int, which is the entry itself
whenever it fits an int. -/
theorem applyorder_gate_and_dispatch (E : Env R) (w : World R)
    (pastix_data : Option pastix_data_t) (flttype : pastix_coeftype_t) (dir : pastix_dir_t)
    (m n : Int) (b : Nat) (ldb : Int) :
    ((pastix_subtask_applyorder E w pastix_data flttype dir m n b ldb).1
        = PASTIX_ERR_BADPARAMETER ↔
      (pastix_data = none ∨ b = 0 ∨
        ∃ pd, pastix_data = some pd ∧
          (pd.steps &&& STEP_CSC2BCSC = 0 ∨ pd.ordemesh.baseval ≠ 0))) ∧
    ((pastix_subtask_applyorder E w pastix_data flttype dir m n b ldb).1
        = PASTIX_ERR_BADPARAMETER →
      (pastix_subtask_applyorder E w pastix_data flttype dir m n b ldb).2.kernels
        = w.kernels ∧
      (pastix_subtask_applyorder E w pastix_data flttype dir m n b ldb).2.rhs = w.rhs) ∧
    ((pastix_subtask_applyorder E w pastix_data flttype dir m n b ldb).1
        ≠ PASTIX_ERR_BADPARAMETER →
      (pastix_subtask_applyorder E w pastix_data flttype dir m n b ldb).1 = PASTIX_SUCCESS ∧
      ∃ pd p, pastix_data = some pd ∧
        (pastix_subtask_applyorder E w pastix_data flttype dir m n b ldb).2.kernels
          = w.kernels ++ [KernelCall.lapmr p (int_of_pastix_int pd.iparm_APPLYPERM_WS)
              dir m n b ldb pd.ordemesh.peritab] ∧
        (-2147483648 ≤ pd.iparm_APPLYPERM_WS ∧ pd.iparm_APPLYPERM_WS < 2147483648 →
          (pastix_subtask_applyorder E w pastix_data flttype dir m n b ldb).2.kernels
            = w.kernels ++ [KernelCall.lapmr p pd.iparm_APPLYPERM_WS
                dir m n b ldb pd.ordemesh.peritab])) := by
  by_cases hr : applyorder_refuses pastix_data b
  · have hbad := applyorder_refused E w pastix_data flttype dir m n b ldb hr
    refine ⟨⟨fun _ => ?_, fun _ => hbad.1⟩, fun _ => hbad.2, fun hne => absurd hbad.1 hne⟩
    cases pastix_data with
    | none => exact Or.inl rfl
    | some pd =>
      rcases hr with hb | hs | hv
      · exact Or.inr (Or.inl hb)
      · exact Or.inr (Or.inr ⟨pd, rfl, Or.inl hs⟩)
      · exact Or.inr (Or.inr ⟨pd, rfl, Or.inr hv⟩)
  · cases pastix_data with
    | none => exact absurd trivial hr
    | some pd =>
      obtain ⟨hok, p, hk, _, _⟩ := applyorder_accepted E w pd flttype dir m n b ldb hr
      have hne : (pastix_subtask_applyorder E w (some pd) flttype dir m n b ldb).1
          ≠ PASTIX_ERR_BADPARAMETER := by
        rw [hok]; decide
      refine ⟨⟨fun hbad => absurd hbad hne, fun hc => ?_⟩, fun hbad => absurd hbad hne,
        fun _ => ⟨hok, pd, p, rfl, hk, fun hfit => ?_⟩⟩
      · exfalso
        apply hr
        rcases hc with hc | hc | ⟨pd', hpd, hc⟩
        · cases hc
        · exact Or.inl hc
        · cases hpd
          exact Or.inr hc
      · rw [hk, int_of_pastix_int_of_fits _ hfit]

/-- Witness of the amended C5 on the sample instance: with a NULL b the call is
refused and runs no kernel; with the block at 77 it is accepted, and the
kernel receives the entry 1 of iparm, which fits an int. -/
theorem applyorder_gate_and_dispatch_witness :
    ((pastix_subtask_applyorder countingEnv freshWorld
        (some (sampleData PastixFactLU PastixDouble)) PastixDouble PastixDirForward 3 1 0 3).1
      = PASTIX_ERR_BADPARAMETER ∧
    (pastix_subtask_applyorder countingEnv freshWorld
        (some (sampleData PastixFactLU PastixDouble)) PastixDouble PastixDirForward 3 1 0
        3).2.kernels = freshWorld.kernels) ∧
    ((pastix_subtask_applyorder countingEnv freshWorld
        (some (sampleData PastixFactLU PastixDouble)) PastixDouble PastixDirForward 3 1 77 3).1
      ≠ PASTIX_ERR_BADPARAMETER ∧
    (-2147483648 ≤ (sampleData PastixFactLU PastixDouble).iparm_APPLYPERM_WS ∧
      (sampleData PastixFactLU PastixDouble).iparm_APPLYPERM_WS < 2147483648) ∧
    ∃ p, (pastix_subtask_applyorder countingEnv freshWorld
        (some (sampleData PastixFactLU PastixDouble)) PastixDouble PastixDirForward 3 1 77
        3).2.kernels = freshWorld.kernels ++
      [KernelCall.lapmr p (sampleData PastixFactLU PastixDouble).iparm_APPLYPERM_WS
        PastixDirForward 3 1 77 3 (sampleData PastixFactLU PastixDouble).ordemesh.peritab]) := by
  refine ⟨⟨(applyorder_gate_and_dispatch countingEnv freshWorld
        (some (sampleData PastixFactLU PastixDouble)) PastixDouble PastixDirForward 3 1 0
        3).1.2 (Or.inr (Or.inl rfl)),
      ((applyorder_gate_and_dispatch countingEnv freshWorld
        (some (sampleData PastixFactLU PastixDouble)) PastixDouble PastixDirForward 3 1 0
        3).2.1 (by decide)).1⟩,
    by decide, ⟨by decide, by decide⟩, ?_⟩
  obtain ⟨_, pd, p, hpd, _, hfit⟩ := (applyorder_gate_and_dispatch countingEnv freshWorld
    (some (sampleData PastixFactLU PastixDouble)) PastixDouble PastixDirForward 3 1 77
    3).2.2 (by decide)
  cases hpd
  exact ⟨p, hfit ⟨by decide, by decide⟩⟩

/-! ## Calls accepted by the gate of the solve kernels -/

theorem trsm_accepted (E : Env R) (w : World R) (pd : pastix_data_t)
    (flttype : pastix_coeftype_t) (side : pastix_side_t) (uplo : pastix_uplo_t)
    (trans : pastix_trans_t) (diag : pastix_diag_t) (nrhs : Int) (b : Nat) (ldb : Int)
    (hb : b ≠ 0) (hs : pd.steps &&& STEP_NUMFACT ≠ 0) :
    pastix_subtask_trsm E w (some pd) flttype side uplo trans diag nrhs b ldb =
      (PASTIX_SUCCESS,
        match flttype with
        | PastixComplex64 =>
          (w.enter (SubCall.trsm flttype side uplo trans diag nrhs b ldb)).run E pd
            (KernelCall.trsm Precision.z side uplo trans diag (mk_sopalin_data pd) nrhs b ldb)
        | PastixComplex32 =>
          (w.enter (SubCall.trsm flttype side uplo trans diag nrhs b ldb)).run E pd
            (KernelCall.trsm Precision.c side uplo trans diag (mk_sopalin_data pd) nrhs b ldb)
        | PastixDouble =>
          (w.enter (SubCall.trsm flttype side uplo trans diag nrhs b ldb)).run E pd
            (KernelCall.trsm Precision.d side uplo
              (if trans = PastixConjTrans then PastixTrans else trans) diag
              (mk_sopalin_data pd) nrhs b ldb)
        | PastixFloat =>
          (w.enter (SubCall.trsm flttype side uplo trans diag nrhs b ldb)).run E pd
            (KernelCall.trsm Precision.s side uplo
              (if trans = PastixConjTrans then PastixTrans else trans) diag
              (mk_sopalin_data pd) nrhs b ldb)
        | pastix_coeftype_t.unrecognized _ =>
          { w.enter (SubCall.trsm flttype side uplo trans diag nrhs b ldb) with
            out := w.out ++ [Output.stderr "Unknown floating point arithmetic"] }) := by
  unfold pastix_subtask_trsm
  cases flttype <;> simp [hb, hs, World.enter]

theorem diag_accepted (E : Env R) (w : World R) (pd : pastix_data_t)
    (flttype : pastix_coeftype_t) (nrhs : Int) (b : Nat) (ldb : Int)
    (hb : b ≠ 0) (hs : pd.steps &&& STEP_NUMFACT ≠ 0) :
    pastix_subtask_diag E w (some pd) flttype nrhs b ldb =
      (PASTIX_SUCCESS,
        match flttype with
        | PastixComplex64 =>
          (w.enter (SubCall.diag flttype nrhs b ldb)).run E pd
            (KernelCall.diag Precision.z (mk_sopalin_data pd) nrhs b ldb)
        | PastixComplex32 =>
          (w.enter (SubCall.diag flttype nrhs b ldb)).run E pd
            (KernelCall.diag Precision.c (mk_sopalin_data pd) nrhs b ldb)
        | PastixDouble =>
          (w.enter (SubCall.diag flttype nrhs b ldb)).run E pd
            (KernelCall.diag Precision.d (mk_sopalin_data pd) nrhs b ldb)
        | PastixFloat =>
          (w.enter (SubCall.diag flttype nrhs b ldb)).run E pd
            (KernelCall.diag Precision.s (mk_sopalin_data pd) nrhs b ldb)
        | pastix_coeftype_t.unrecognized _ =>
          { w.enter (SubCall.diag flttype nrhs b ldb) with
            out := w.out ++ [Output.stderr "Unknown floating point arithmetic"] }) := by
  unfold pastix_subtask_diag
  cases flttype <;> simp [hb, hs, World.enter]

/-- The kernel calls run by one call of pastix_subtask_trsm depend on the state
through its record of kernel calls only. -/
theorem trsm_kernels_congr (E : Env R) (w w' : World R) (pd pd' : pastix_data_t)
    (flttype : pastix_coeftype_t) (side : pastix_side_t) (uplo : pastix_uplo_t)
    (trans trans' : pastix_trans_t) (diag : pastix_diag_t) (nrhs : Int) (b : Nat) (ldb : Int)
    (hw : w.kernels = w'.kernels) (hsteps : pd.steps = pd'.steps)
    (hsd : mk_sopalin_data pd = mk_sopalin_data pd')
    (ht : trans = trans' ∨
      ((flttype = PastixDouble ∨ flttype = PastixFloat) ∧
        trans = PastixConjTrans ∧ trans' = PastixTrans)) :
    (pastix_subtask_trsm E w (some pd) flttype side uplo trans diag nrhs b ldb).2.kernels =
    (pastix_subtask_trsm E w' (some pd') flttype side uplo trans' diag nrhs b ldb).2.kernels := by
  by_cases hb : b = 0
  · rw [(trsm_refused E w pd flttype side uplo trans diag nrhs b ldb (Or.inl hb)).2.1,
      (trsm_refused E w' pd' flttype side uplo trans' diag nrhs b ldb (Or.inl hb)).2.1, hw]
  · by_cases hs : pd.steps &&& STEP_NUMFACT = 0
    · have hs' : pd'.steps &&& STEP_NUMFACT = 0 := hsteps ▸ hs
      rw [(trsm_refused E w pd flttype side uplo trans diag nrhs b ldb (Or.inr hs)).2.1,
        (trsm_refused E w' pd' flttype side uplo trans' diag nrhs b ldb (Or.inr hs')).2.1, hw]
    · have hs' : pd'.steps &&& STEP_NUMFACT ≠ 0 := hsteps ▸ hs
      rw [trsm_accepted E w pd flttype side uplo trans diag nrhs b ldb hb hs,
        trsm_accepted E w' pd' flttype side uplo trans' diag nrhs b ldb hb hs']
      rcases ht with ht | ⟨hf | hf, ht1, ht2⟩
      · subst ht
        cases flttype <;> simp [World.run, World.enter, hw, hsd]
      · subst hf ht1 ht2
        simp [World.run, World.enter, hw, hsd]
      · subst hf ht1 ht2
        simp [World.run, World.enter, hw, hsd]

theorem diag_kernels_congr (E : Env R) (w w' : World R) (pd pd' : pastix_data_t)
    (flttype : pastix_coeftype_t) (nrhs : Int) (b : Nat) (ldb : Int)
    (hw : w.kernels = w'.kernels) (hsteps : pd.steps = pd'.steps)
    (hsd : mk_sopalin_data pd = mk_sopalin_data pd') :
    (pastix_subtask_diag E w (some pd) flttype nrhs b ldb).2.kernels =
    (pastix_subtask_diag E w' (some pd') flttype nrhs b ldb).2.kernels := by
  by_cases hb : b = 0
  · rw [(diag_refused E w pd flttype nrhs b ldb (Or.inl hb)).2.1,
      (diag_refused E w' pd' flttype nrhs b ldb (Or.inl hb)).2.1, hw]
  · by_cases hs : pd.steps &&& STEP_NUMFACT = 0
    · have hs' : pd'.steps &&& STEP_NUMFACT = 0 := hsteps ▸ hs
      rw [(diag_refused E w pd flttype nrhs b ldb (Or.inr hs)).2.1,
        (diag_refused E w' pd' flttype nrhs b ldb (Or.inr hs')).2.1, hw]
    · have hs' : pd'.steps &&& STEP_NUMFACT ≠ 0 := hsteps ▸ hs
      rw [diag_accepted E w pd flttype nrhs b ldb hb hs,
        diag_accepted E w' pd' flttype nrhs b ldb hb hs']
      cases flttype <;> simp [World.run, World.enter, hw, hsd]

/-! ## Conjugate transposition in real arithmetic -/

theorem subtask_solve_kernels (E : Env R) (w : World R) (pd : pastix_data_t)
    (nrhs : Int) (b : Nat) (ldb : Int) (hs : pd.steps &&& STEP_NUMFACT ≠ 0) :
    (pastix_subtask_solve E w (some pd) nrhs b ldb).2.2.kernels =
      (match pd.iparm_FACTORIZATION with
       | PastixFactLLH => solve_block_LLT E w pd PastixConjTrans nrhs b ldb
       | PastixFactLLT => solve_block_LLT E w pd PastixTrans nrhs b ldb
       | PastixFactLDLH => solve_block_LDLT E w pd PastixConjTrans nrhs b ldb
       | PastixFactLDLT => solve_block_LDLT E w pd PastixTrans nrhs b ldb
       | _ => solve_block_LU E w pd nrhs b ldb).kernels := by
  unfold pastix_subtask_solve
  simp only [hs, if_false]
  split_ifs <;> rfl

theorem subtask_solve_real_conj_kernels (E : Env R) (w : World R) (pd : pastix_data_t)
    (nrhs : Int) (b : Nat) (ldb : Int)
    (hreal : pd.bcsc.flttype = PastixDouble ∨ pd.bcsc.flttype = PastixFloat) :
    (pastix_subtask_solve E w (some { pd with iparm_FACTORIZATION := PastixFactLLH })
        nrhs b ldb).2.2.kernels =
    (pastix_subtask_solve E w (some { pd with iparm_FACTORIZATION := PastixFactLLT })
        nrhs b ldb).2.2.kernels ∧
    (pastix_subtask_solve E w (some { pd with iparm_FACTORIZATION := PastixFactLDLH })
        nrhs b ldb).2.2.kernels =
    (pastix_subtask_solve E w (some { pd with iparm_FACTORIZATION := PastixFactLDLT })
        nrhs b ldb).2.2.kernels := by
  by_cases hs : pd.steps &&& STEP_NUMFACT = 0
  · constructor <;> simp [pastix_subtask_solve, hs, World.errorPrint]
  · constructor
    · rw [subtask_solve_kernels _ _ _ _ _ _ (by exact hs),
        subtask_solve_kernels _ _ _ _ _ _ (by exact hs)]
      dsimp only [solve_block_LLT]
      refine trsm_kernels_congr E _ _ _ _ _ _ _ _ _ _ _ _ _ ?_ rfl rfl
        (Or.inr ⟨hreal, rfl, rfl⟩)
      exact trsm_kernels_congr E _ _ _ _ _ _ _ _ _ _ _ _ _ rfl rfl rfl (Or.inl rfl)
    · rw [subtask_solve_kernels _ _ _ _ _ _ (by exact hs),
        subtask_solve_kernels _ _ _ _ _ _ (by exact hs)]
      dsimp only [solve_block_LDLT]
      refine trsm_kernels_congr E _ _ _ _ _ _ _ _ _ _ _ _ _ ?_ rfl rfl
        (Or.inr ⟨hreal, rfl, rfl⟩)
      refine diag_kernels_congr E _ _ _ _ _ _ _ _ ?_ rfl rfl
      exact trsm_kernels_congr E _ _ _ _ _ _ _ _ _ _ _ _ _ rfl rfl rfl (Or.inl rfl)

theorem subtask_solve_status_eq (E : Env R) (w : World R) (pd : pastix_data_t)
    (nrhs : Int) (b : Nat) (ldb : Int) :
    (pastix_subtask_solve E w (some pd) nrhs b ldb).1 =
      if pd.steps &&& STEP_NUMFACT = 0 then PASTIX_ERR_BADPARAMETER else EXIT_SUCCESS := by
  unfold pastix_subtask_solve
  by_cases hs : pd.steps &&& STEP_NUMFACT = 0 <;> simp [hs]

/-- C6: on a call of pastix_subtask_trsm that passes the gate, in double or
single real arithmetic a request with PastixConjTrans runs the kernel of that
precision once with the transposition PastixTrans and the side, uplo, diag,
nrhs, b and ldb of the request, and has the same status, kernel calls and
resulting block as the request with PastixTrans; in the two complex
arithmetics, and for a transposition other than PastixConjTrans in the real
ones, the transposition reaches the kernel unchanged.  Hence, on an instance
in real arithmetic, pastix_subtask_solve runs the same kernel calls and
returns the same status for LLH as for LLT, and for LDLH as for LDLT. -/
theorem real_conjtrans_runs_as_trans (E : Env R) (w : World R) (pd : pastix_data_t)
    (side : pastix_side_t) (uplo : pastix_uplo_t) (diag : pastix_diag_t)
    (nrhs : Int) (b : Nat) (ldb : Int) :
    (b ≠ 0 → pd.steps &&& STEP_NUMFACT ≠ 0 →
      ((pastix_subtask_trsm E w (some pd) PastixDouble side uplo PastixConjTrans diag
            nrhs b ldb).2.kernels =
          w.kernels ++ [KernelCall.trsm Precision.d side uplo PastixTrans diag
            (mk_sopalin_data pd) nrhs b ldb] ∧
        (pastix_subtask_trsm E w (some pd) PastixDouble side uplo PastixConjTrans diag
            nrhs b ldb).2.kernels =
          (pastix_subtask_trsm E w (some pd) PastixDouble side uplo PastixTrans diag
            nrhs b ldb).2.kernels ∧
        (pastix_subtask_trsm E w (some pd) PastixDouble side uplo PastixConjTrans diag
            nrhs b ldb).1 =
          (pastix_subtask_trsm E w (some pd) PastixDouble side uplo PastixTrans diag
            nrhs b ldb).1 ∧
        (pastix_subtask_trsm E w (some pd) PastixDouble side uplo PastixConjTrans diag
            nrhs b ldb).2.rhs =
          (pastix_subtask_trsm E w (some pd) PastixDouble side uplo PastixTrans diag
            nrhs b ldb).2.rhs) ∧
      ((pastix_subtask_trsm E w (some pd) PastixFloat side uplo PastixConjTrans diag
            nrhs b ldb).2.kernels =
          w.kernels ++ [KernelCall.trsm Precision.s side uplo PastixTrans diag
            (mk_sopalin_data pd) nrhs b ldb] ∧
        (pastix_subtask_trsm E w (some pd) PastixFloat side uplo PastixConjTrans diag
            nrhs b ldb).2.kernels =
          (pastix_subtask_trsm E w (some pd) PastixFloat side uplo PastixTrans diag
            nrhs b ldb).2.kernels ∧
        (pastix_subtask_trsm E w (some pd) PastixFloat side uplo PastixConjTrans diag
            nrhs b ldb).1 =
          (pastix_subtask_trsm E w (some pd) PastixFloat side uplo PastixTrans diag
            nrhs b ldb).1 ∧
        (pastix_subtask_trsm E w (some pd) PastixFloat side uplo PastixConjTrans diag
            nrhs b ldb).2.rhs =
          (pastix_subtask_trsm E w (some pd) PastixFloat side uplo PastixTrans diag
            nrhs b ldb).2.rhs) ∧
      (∀ trans : pastix_trans_t,
        (pastix_subtask_trsm E w (some pd) PastixComplex64 side uplo trans diag
            nrhs b ldb).2.kernels =
          w.kernels ++ [KernelCall.trsm Precision.z side uplo trans diag
            (mk_sopalin_data pd) nrhs b ldb] ∧
        (pastix_subtask_trsm E w (some pd) PastixComplex32 side uplo trans diag
            nrhs b ldb).2.kernels =
          w.kernels ++ [KernelCall.trsm Precision.c side uplo trans diag
            (mk_sopalin_data pd) nrhs b ldb]) ∧
      (∀ trans : pastix_trans_t, trans ≠ PastixConjTrans →
        (pastix_subtask_trsm E w (some pd) PastixDouble side uplo trans diag
            nrhs b ldb).2.kernels =
          w.kernels ++ [KernelCall.trsm Precision.d side uplo trans diag
            (mk_sopalin_data pd) nrhs b ldb] ∧
        (pastix_subtask_trsm E w (some pd) PastixFloat side uplo trans diag
            nrhs b ldb).2.kernels =
          w.kernels ++ [KernelCall.trsm Precision.s side uplo trans diag
            (mk_sopalin_data pd) nrhs b ldb])) ∧
    (pd.bcsc.flttype = PastixDouble ∨ pd.bcsc.flttype = PastixFloat →
      ((pastix_subtask_solve E w (some { pd with iparm_FACTORIZATION := PastixFactLLH })
            nrhs b ldb).2.2.kernels =
          (pastix_subtask_solve E w (some { pd with iparm_FACTORIZATION := PastixFactLLT })
            nrhs b ldb).2.2.kernels ∧
        (pastix_subtask_solve E w (some { pd with iparm_FACTORIZATION := PastixFactLLH })
            nrhs b ldb).1 =
          (pastix_subtask_solve E w (some { pd with iparm_FACTORIZATION := PastixFactLLT })
            nrhs b ldb).1) ∧
      ((pastix_subtask_solve E w (some { pd with iparm_FACTORIZATION := PastixFactLDLH })
            nrhs b ldb).2.2.kernels =
          (pastix_subtask_solve E w (some { pd with iparm_FACTORIZATION := PastixFactLDLT })
            nrhs b ldb).2.2.kernels ∧
        (pastix_subtask_solve E w (some { pd with iparm_FACTORIZATION := PastixFactLDLH })
            nrhs b ldb).1 =
          (pastix_subtask_solve E w (some { pd with iparm_FACTORIZATION := PastixFactLDLT })
            nrhs b ldb).1)) := by
  refine ⟨fun hb hs => ⟨?_, ?_, ?_, ?_⟩, fun hreal => ?_⟩
  · simp [trsm_accepted E w pd _ side uplo _ diag nrhs b ldb hb hs, World.run, World.enter]
  · simp [trsm_accepted E w pd _ side uplo _ diag nrhs b ldb hb hs, World.run, World.enter]
  · intro trans
    simp [trsm_accepted E w pd _ side uplo _ diag nrhs b ldb hb hs, World.run, World.enter]
  · intro trans ht
    simp [trsm_accepted E w pd _ side uplo _ diag nrhs b ldb hb hs, World.run, World.enter, ht]
  · obtain ⟨h1, h2⟩ := subtask_solve_real_conj_kernels E w pd nrhs b ldb hreal
    exact ⟨⟨h1, by simp only [subtask_solve_status_eq]⟩,
      ⟨h2, by simp only [subtask_solve_status_eq]⟩⟩

/-- Witness of C6 on the sample instance: a conjugate-transposed solve in
double precision runs sopalin_dtrsm with PastixTrans, and the kernel calls of
the LLH and LLT sequences coincide. -/
theorem real_conjtrans_runs_as_trans_witness :
    ((77 : Nat) ≠ 0 ∧ (sampleData PastixFactLU PastixDouble).steps &&& STEP_NUMFACT ≠ 0 ∧
      (pastix_subtask_trsm countingEnv freshWorld (some (sampleData PastixFactLU PastixDouble))
          PastixDouble PastixLeft PastixLower PastixConjTrans PastixNonUnit 1 77 3).2.kernels =
        [KernelCall.trsm Precision.d PastixLeft PastixLower PastixTrans PastixNonUnit
          (mk_sopalin_data (sampleData PastixFactLU PastixDouble)) 1 77 3]) ∧
    ((sampleData PastixFactLU PastixDouble).bcsc.flttype = PastixDouble ∧
      (pastix_subtask_solve countingEnv freshWorld
          (some (sampleData PastixFactLLH PastixDouble)) 1 77 3).2.2.kernels =
        (pastix_subtask_solve countingEnv freshWorld
          (some (sampleData PastixFactLLT PastixDouble)) 1 77 3).2.2.kernels) :=
  ⟨⟨by decide, by decide,
    ((real_conjtrans_runs_as_trans countingEnv freshWorld
      (sampleData PastixFactLU PastixDouble) PastixLeft PastixLower PastixNonUnit 1 77 3).1
      (by decide) (by decide)).1.1⟩,
   ⟨rfl,
    ((real_conjtrans_runs_as_trans countingEnv freshWorld
      (sampleData PastixFactLU PastixDouble) PastixLeft PastixLower PastixNonUnit 1 77 3).2
      (Or.inl rfl)).1.1⟩⟩

/-! ## The trace of pastix_task_solve -/

theorem staging_skipped (E : Env R) (w : World R) (pd : pastix_data_t)
    (hoff : ¬ (refine_gpu_requested E pd = true ∧ E.PASTIX_WITH_CUDA = true)) :
    pastix_task_solve_staging E w pd = some (pd, w) := by
  unfold pastix_task_solve_staging
  rw [if_neg hoff]

theorem trsm_kernels_no_lapmr (E : Env R) (w : World R) (pd : pastix_data_t)
    (flttype : pastix_coeftype_t) (side : pastix_side_t) (uplo : pastix_uplo_t)
    (trans : pastix_trans_t) (diag : pastix_diag_t) (nrhs : Int) (b : Nat) (ldb : Int) :
    ∃ l, (pastix_subtask_trsm E w (some pd) flttype side uplo trans diag nrhs b ldb).2.kernels
        = w.kernels ++ l ∧ ∀ k ∈ l, KernelCall.isLapmr k = false := by
  by_cases hg : b = 0 ∨ pd.steps &&& STEP_NUMFACT = 0
  · exact ⟨[], by
      simp [(trsm_refused E w pd flttype side uplo trans diag nrhs b ldb hg).2.1]⟩
  · simp only [not_or] at hg
    rw [trsm_accepted E w pd flttype side uplo trans diag nrhs b ldb hg.1 hg.2]
    cases flttype with
    | unrecognized tag => exact ⟨[], by simp [World.enter]⟩
    | _ =>
      refine ⟨[_], rfl, fun k hk => ?_⟩
      rw [List.mem_singleton.mp hk]
      rfl

theorem diag_kernels_no_lapmr (E : Env R) (w : World R) (pd : pastix_data_t)
    (flttype : pastix_coeftype_t) (nrhs : Int) (b : Nat) (ldb : Int) :
    ∃ l, (pastix_subtask_diag E w (some pd) flttype nrhs b ldb).2.kernels
        = w.kernels ++ l ∧ ∀ k ∈ l, KernelCall.isLapmr k = false := by
  by_cases hg : b = 0 ∨ pd.steps &&& STEP_NUMFACT = 0
  · exact ⟨[], by simp [(diag_refused E w pd flttype nrhs b ldb hg).2.1]⟩
  · simp only [not_or] at hg
    rw [diag_accepted E w pd flttype nrhs b ldb hg.1 hg.2]
    cases flttype with
    | unrecognized tag => exact ⟨[], by simp [World.enter]⟩
    | _ =>
      refine ⟨[_], rfl, fun k hk => ?_⟩
      rw [List.mem_singleton.mp hk]
      rfl

theorem subtask_solve_kernels_no_lapmr (E : Env R) (w : World R) (pd : pastix_data_t)
    (nrhs : Int) (b : Nat) (ldb : Int) (hs : pd.steps &&& STEP_NUMFACT ≠ 0) :
    ∃ l, (pastix_subtask_solve E w (some pd) nrhs b ldb).2.2.kernels = w.kernels ++ l ∧
      ∀ k ∈ l, KernelCall.isLapmr k = false := by
  rw [subtask_solve_kernels E w pd nrhs b ldb hs]
  have two : ∀ (u : pastix_uplo_t) (t : pastix_trans_t) (d1 d2 : pastix_diag_t),
      ∃ l, (pastix_subtask_trsm E
          (pastix_subtask_trsm E w (some pd) pd.bcsc.flttype PastixLeft PastixLower
            PastixNoTrans d1 nrhs b ldb).2
          (some pd) pd.bcsc.flttype PastixLeft u t d2 nrhs b ldb).2.kernels = w.kernels ++ l ∧
        ∀ k ∈ l, KernelCall.isLapmr k = false := by
    intro u t d1 d2
    obtain ⟨l1, h1, n1⟩ := trsm_kernels_no_lapmr E w pd pd.bcsc.flttype PastixLeft
      PastixLower PastixNoTrans d1 nrhs b ldb
    obtain ⟨l2, h2, n2⟩ := trsm_kernels_no_lapmr E
      (pastix_subtask_trsm E w (some pd) pd.bcsc.flttype PastixLeft PastixLower
        PastixNoTrans d1 nrhs b ldb).2 pd pd.bcsc.flttype PastixLeft u t d2 nrhs b ldb
    refine ⟨l1 ++ l2, by rw [h2, h1, List.append_assoc], fun k hk => ?_⟩
    rcases List.mem_append.mp hk with hk | hk
    · exact n1 k hk
    · exact n2 k hk
  have three : ∀ (t : pastix_trans_t),
      ∃ l, (solve_block_LDLT E w pd t nrhs b ldb).kernels = w.kernels ++ l ∧
        ∀ k ∈ l, KernelCall.isLapmr k = false := by
    intro t
    dsimp only [solve_block_LDLT]
    obtain ⟨l1, h1, n1⟩ := trsm_kernels_no_lapmr E w pd pd.bcsc.flttype PastixLeft
      PastixLower PastixNoTrans PastixUnit nrhs b ldb
    obtain ⟨l2, h2, n2⟩ := diag_kernels_no_lapmr E
      (pastix_subtask_trsm E w (some pd) pd.bcsc.flttype PastixLeft PastixLower
        PastixNoTrans PastixUnit nrhs b ldb).2 pd pd.bcsc.flttype nrhs b ldb
    obtain ⟨l3, h3, n3⟩ := trsm_kernels_no_lapmr E
      (pastix_subtask_diag E
        (pastix_subtask_trsm E w (some pd) pd.bcsc.flttype PastixLeft PastixLower
          PastixNoTrans PastixUnit nrhs b ldb).2 (some pd) pd.bcsc.flttype nrhs b ldb).2
      pd pd.bcsc.flttype PastixLeft PastixLower t PastixUnit nrhs b ldb
    refine ⟨l1 ++ (l2 ++ l3), by rw [h3, h2, h1]; simp [List.append_assoc], fun k hk => ?_⟩
    rcases List.mem_append.mp hk with hk | hk
    · exact n1 k hk
    · rcases List.mem_append.mp hk with hk | hk
      · exact n2 k hk
      · exact n3 k hk
  cases pd.iparm_FACTORIZATION with
  | PastixFactLDLT => exact three _
  | PastixFactLDLH => exact three _
  | _ => exact two _ _ _ _

theorem subtask_solve_instance (E : Env R) (w : World R) (pd : pastix_data_t)
    (nrhs : Int) (b : Nat) (ldb : Int) (hs : pd.steps &&& STEP_NUMFACT ≠ 0) :
    (pastix_subtask_solve E w (some pd) nrhs b ldb).2.1
      = some { pd with dparm_SOLV_TIME := E.clockVal } := by
  unfold pastix_subtask_solve
  simp only [hs, if_false]

/-- C2: on an instance and a block that pass every gate (b not NULL,
STEP_CSC2BCSC and STEP_NUMFACT set, ordering 0-based), with the accelerator
path off, pastix_task_solve returns and the calls it issues are exactly: one
pastix_subtask_applyorder with PastixDirForward, m = bcsc->gN and n = nrhs,
then the sequence of pastix_subtask_solve for the factorization kind of the
instance, then one pastix_subtask_applyorder with PastixDirBackward and the
same m, n, b, ldb and arithmetic type.  At the level of the kernels: one
forward permutation, the solve kernels, none of which is a permutation, and
one backward permutation. -/
theorem task_solve_call_trace (E : Env R) (w : World R) (pd : pastix_data_t)
    (nrhs : Int) (b : Nat) (ldb : Int)
    (hb : b ≠ 0) (hcsc : pd.steps &&& STEP_CSC2BCSC ≠ 0)
    (hnum : pd.steps &&& STEP_NUMFACT ≠ 0) (hbase : pd.ordemesh.baseval = 0)
    (hoff : ¬ (refine_gpu_requested E pd = true ∧ E.PASTIX_WITH_CUDA = true)) :
    ∃ r, pastix_task_solve E w (some pd) nrhs b ldb = some r ∧
      r.2.2.subcalls = w.subcalls ++
        [SubCall.applyorder pd.bcsc.flttype PastixDirForward pd.bcsc.gN nrhs b ldb] ++
        solve_sequence pd.iparm_FACTORIZATION pd.bcsc.flttype nrhs b ldb ++
        [SubCall.applyorder pd.bcsc.flttype PastixDirBackward pd.bcsc.gN nrhs b ldb] ∧
      ∃ mid, (∀ k ∈ mid, KernelCall.isLapmr k = false) ∧
        r.2.2.kernels = w.kernels ++
          [KernelCall.lapmr (lapmr_precision pd.bcsc.flttype)
            (int_of_pastix_int pd.iparm_APPLYPERM_WS)
            PastixDirForward pd.bcsc.gN nrhs b ldb pd.ordemesh.peritab] ++ mid ++
          [KernelCall.lapmr (lapmr_precision pd.bcsc.flttype)
            (int_of_pastix_int pd.iparm_APPLYPERM_WS)
            PastixDirBackward pd.bcsc.gN nrhs b ldb pd.ordemesh.peritab] := by
  have hacc : ∀ pd' : pastix_data_t, pd'.steps = pd.steps → pd'.ordemesh = pd.ordemesh →
      ¬ applyorder_refuses (some pd') b := by
    intro pd' h1 h2
    simp [applyorder_refuses, hb, h1, h2, hcsc, hbase]
  unfold pastix_task_solve
  simp only [staging_skipped E w pd hoff]
  refine ⟨_, rfl, ?_, ?_⟩
  · simp only [applyorder_subcalls, subtask_solve_subcalls _ _ _ _ _ _ hnum]
  · obtain ⟨_, p1, hk1, _, hp1⟩ := applyorder_accepted E w pd pd.bcsc.flttype
      PastixDirForward pd.bcsc.gN nrhs b ldb (hacc pd rfl rfl)
    obtain ⟨mid, hk2, hmid⟩ := subtask_solve_kernels_no_lapmr E
      (pastix_subtask_applyorder E w (some pd) pd.bcsc.flttype PastixDirForward pd.bcsc.gN
        nrhs b ldb).2 pd nrhs b ldb hnum
    refine ⟨mid, hmid, ?_⟩
    dsimp only
    rw [subtask_solve_instance _ _ _ _ _ _ hnum]
    obtain ⟨_, p3, hk3, _, hp3⟩ := applyorder_accepted E
      (pastix_subtask_solve E
        (pastix_subtask_applyorder E w (some pd) pd.bcsc.flttype PastixDirForward pd.bcsc.gN
          nrhs b ldb).2 (some pd) nrhs b ldb).2.2
      { pd with dparm_SOLV_TIME := E.clockVal } pd.bcsc.flttype
      PastixDirBackward pd.bcsc.gN nrhs b ldb (hacc _ rfl rfl)
    rw [hk3, hk2, hk1, hp1, hp3]
    cases pd.bcsc.flttype <;> rfl

/-- Witness of C2 on the sample instance with the LLT kind. -/
theorem task_solve_call_trace_witness :
    ((77 : Nat) ≠ 0 ∧
      (sampleData PastixFactLLT PastixDouble).steps &&& STEP_CSC2BCSC ≠ 0 ∧
      (sampleData PastixFactLLT PastixDouble).steps &&& STEP_NUMFACT ≠ 0 ∧
      (sampleData PastixFactLLT PastixDouble).ordemesh.baseval = 0 ∧
      ¬ (refine_gpu_requested countingEnv (sampleData PastixFactLLT PastixDouble) = true ∧
          countingEnv.PASTIX_WITH_CUDA = true)) ∧
    ∃ r, pastix_task_solve countingEnv freshWorld
        (some (sampleData PastixFactLLT PastixDouble)) 1 77 3 = some r ∧
      r.2.2.subcalls = freshWorld.subcalls ++
        [SubCall.applyorder PastixDouble PastixDirForward 3 1 77 3] ++
        solve_sequence PastixFactLLT PastixDouble 1 77 3 ++
        [SubCall.applyorder PastixDouble PastixDirBackward 3 1 77 3] :=
  ⟨⟨by decide, by decide, by decide, by decide, by decide⟩,
   (task_solve_call_trace countingEnv freshWorld (sampleData PastixFactLLT PastixDouble)
      1 77 3 (by decide) (by decide) (by decide) (by decide) (by decide)).imp
     (fun _ h => ⟨h.1, h.2.1⟩)⟩

/-! ## Dispatch on the arithmetic type -/

/-- C7, as stated, fails: on the sample instance, which passes the gate of
pastix_subtask_applyorder, a call with the unrecognized arithmetic type of tag
0 returns PASTIX_SUCCESS but runs the double precision permutation kernel,
which alters the block. -/
theorem applyorder_unrecognized_runs_kernel :
    ((77 : Nat) ≠ 0 ∧ (sampleData PastixFactLU PastixDouble).steps &&& STEP_CSC2BCSC ≠ 0 ∧
      (sampleData PastixFactLU PastixDouble).ordemesh.baseval = 0) ∧
    (pastix_subtask_applyorder countingEnv freshWorld
        (some (sampleData PastixFactLU PastixDouble)) (pastix_coeftype_t.unrecognized 0)
        PastixDirForward 3 1 77 3).1 = PASTIX_SUCCESS ∧
    (pastix_subtask_applyorder countingEnv freshWorld
        (some (sampleData PastixFactLU PastixDouble)) (pastix_coeftype_t.unrecognized 0)
        PastixDirForward 3 1 77 3).2.kernels =
      [KernelCall.lapmr Precision.d 1 PastixDirForward 3 1 77 3 [2, 0, 1]] ∧
    (pastix_subtask_applyorder countingEnv freshWorld
        (some (sampleData PastixFactLU PastixDouble)) (pastix_coeftype_t.unrecognized 0)
        PastixDirForward 3 1 77 3).2.kernels ≠ freshWorld.kernels ∧
    (pastix_subtask_applyorder countingEnv freshWorld
        (some (sampleData PastixFactLU PastixDouble)) (pastix_coeftype_t.unrecognized 0)
        PastixDirForward 3 1 77 3).2.rhs ≠ freshWorld.rhs := by
  refine ⟨by decide, by decide, by decide, by decide, by decide⟩

/-- C7, amended: on a call that passes the gate, with an arithmetic type that
is none of the four recognized ones, pastix_subtask_trsm and
pastix_subtask_diag return PASTIX_SUCCESS, run no kernel and leave the block
unchanged, whereas pastix_subtask_applyorder returns PASTIX_SUCCESS after one
call of the double precision permutation kernel; with one of the four
recognized types each of the three operations returns PASTIX_SUCCESS after
exactly one call of the kernel of that precision. -/
theorem dispatch_on_arithmetic_type (E : Env R) (w : World R) (pd : pastix_data_t)
    (dir : pastix_dir_t) (m n : Int) (side : pastix_side_t) (uplo : pastix_uplo_t)
    (trans : pastix_trans_t) (diag : pastix_diag_t) (nrhs : Int) (b : Nat) (ldb : Int)
    (hb : b ≠ 0) :
    (pd.steps &&& STEP_NUMFACT ≠ 0 →
      (∀ tag : Int,
        (pastix_subtask_trsm E w (some pd) (pastix_coeftype_t.unrecognized tag) side uplo
            trans diag nrhs b ldb).1 = PASTIX_SUCCESS ∧
        (pastix_subtask_trsm E w (some pd) (pastix_coeftype_t.unrecognized tag) side uplo
            trans diag nrhs b ldb).2.kernels = w.kernels ∧
        (pastix_subtask_trsm E w (some pd) (pastix_coeftype_t.unrecognized tag) side uplo
            trans diag nrhs b ldb).2.rhs = w.rhs ∧
        (pastix_subtask_diag E w (some pd) (pastix_coeftype_t.unrecognized tag)
            nrhs b ldb).1 = PASTIX_SUCCESS ∧
        (pastix_subtask_diag E w (some pd) (pastix_coeftype_t.unrecognized tag)
            nrhs b ldb).2.kernels = w.kernels ∧
        (pastix_subtask_diag E w (some pd) (pastix_coeftype_t.unrecognized tag)
            nrhs b ldb).2.rhs = w.rhs) ∧
      (∀ (flttype : pastix_coeftype_t) (p : Precision), kernel_precision flttype = some p →
        (pastix_subtask_trsm E w (some pd) flttype side uplo trans diag nrhs b ldb).1
            = PASTIX_SUCCESS ∧
        (∃ t, (pastix_subtask_trsm E w (some pd) flttype side uplo trans diag
            nrhs b ldb).2.kernels =
          w.kernels ++ [KernelCall.trsm p side uplo t diag (mk_sopalin_data pd) nrhs b ldb]) ∧
        (pastix_subtask_diag E w (some pd) flttype nrhs b ldb).1 = PASTIX_SUCCESS ∧
        (pastix_subtask_diag E w (some pd) flttype nrhs b ldb).2.kernels =
          w.kernels ++ [KernelCall.diag p (mk_sopalin_data pd) nrhs b ldb])) ∧
    (pd.steps &&& STEP_CSC2BCSC ≠ 0 → pd.ordemesh.baseval = 0 →
      (∀ tag : Int,
        (pastix_subtask_applyorder E w (some pd) (pastix_coeftype_t.unrecognized tag) dir m n
            b ldb).1 = PASTIX_SUCCESS ∧
        (pastix_subtask_applyorder E w (some pd) (pastix_coeftype_t.unrecognized tag) dir m n
            b ldb).2.kernels =
          w.kernels ++ [KernelCall.lapmr Precision.d
            (int_of_pastix_int pd.iparm_APPLYPERM_WS) dir m n b ldb pd.ordemesh.peritab]) ∧
      (∀ (flttype : pastix_coeftype_t) (p : Precision), kernel_precision flttype = some p →
        (pastix_subtask_applyorder E w (some pd) flttype dir m n b ldb).1 = PASTIX_SUCCESS ∧
        (pastix_subtask_applyorder E w (some pd) flttype dir m n b ldb).2.kernels =
          w.kernels ++ [KernelCall.lapmr p (int_of_pastix_int pd.iparm_APPLYPERM_WS)
            dir m n b ldb pd.ordemesh.peritab])) := by
  refine ⟨fun hs => ⟨fun tag => ?_, fun flttype p hp => ?_⟩,
    fun hc hv => ⟨fun tag => ?_, fun flttype p hp => ?_⟩⟩
  · simp [trsm_accepted E w pd _ side uplo trans diag nrhs b ldb hb hs,
      diag_accepted E w pd _ nrhs b ldb hb hs, World.enter]
  · rw [trsm_accepted E w pd _ side uplo trans diag nrhs b ldb hb hs,
      diag_accepted E w pd _ nrhs b ldb hb hs]
    cases flttype <;> simp only [kernel_precision, Option.some.injEq] at hp <;>
      first
      | exact absurd hp (by simp)
      | (subst hp; exact ⟨rfl, ⟨_, rfl⟩, rfl, rfl⟩)
  · have hacc : ¬ applyorder_refuses (some pd) b := by
      simp [applyorder_refuses, hb, hc, hv]
    obtain ⟨hok, q, hk, _, hq⟩ := applyorder_accepted E w pd
      (pastix_coeftype_t.unrecognized tag) dir m n b ldb hacc
    exact ⟨hok, by rw [hk, hq]⟩
  · have hacc : ¬ applyorder_refuses (some pd) b := by
      simp [applyorder_refuses, hb, hc, hv]
    obtain ⟨hok, q, hk, _, hq⟩ := applyorder_accepted E w pd flttype dir m n b ldb hacc
    refine ⟨hok, ?_⟩
    rw [hk, hq]
    cases flttype <;> simp only [kernel_precision, Option.some.injEq] at hp <;>
      first
      | exact absurd hp (by simp)
      | (subst hp; rfl)

/-- Witness of the amended C7 on the sample instance: a solve with an
unrecognized arithmetic type runs no kernel, a permutation with it runs the
double precision kernel. -/
theorem dispatch_on_arithmetic_type_witness :
    ((77 : Nat) ≠ 0 ∧ (sampleData PastixFactLU PastixDouble).steps &&& STEP_NUMFACT ≠ 0 ∧
      (sampleData PastixFactLU PastixDouble).steps &&& STEP_CSC2BCSC ≠ 0 ∧
      (sampleData PastixFactLU PastixDouble).ordemesh.baseval = 0 ∧
      kernel_precision PastixComplex32 = some Precision.c) ∧
    (pastix_subtask_trsm countingEnv freshWorld (some (sampleData PastixFactLU PastixDouble))
        (pastix_coeftype_t.unrecognized 0) PastixLeft PastixLower PastixNoTrans PastixUnit
        1 77 3).2.kernels = freshWorld.kernels ∧
    (pastix_subtask_diag countingEnv freshWorld (some (sampleData PastixFactLU PastixDouble))
        PastixComplex32 1 77 3).2.kernels = freshWorld.kernels ++
      [KernelCall.diag Precision.c (mk_sopalin_data (sampleData PastixFactLU PastixDouble))
        1 77 3] ∧
    (pastix_subtask_applyorder countingEnv freshWorld
        (some (sampleData PastixFactLU PastixDouble)) (pastix_coeftype_t.unrecognized 0)
        PastixDirForward 3 1 77 3).2.kernels = freshWorld.kernels ++
      [KernelCall.lapmr Precision.d 1 PastixDirForward 3 1 77 3 [2, 0, 1]] ∧
    (pastix_subtask_applyorder countingEnv freshWorld
        (some (sampleData PastixFactLU PastixDouble)) PastixComplex32
        PastixDirForward 3 1 77 3).2.kernels = freshWorld.kernels ++
      [KernelCall.lapmr Precision.c 1 PastixDirForward 3 1 77 3 [2, 0, 1]] :=
  ⟨⟨by decide, by decide, by decide, by decide, rfl⟩,
   (((dispatch_on_arithmetic_type countingEnv freshWorld
      (sampleData PastixFactLU PastixDouble) PastixDirForward 3 1 PastixLeft PastixLower
      PastixNoTrans PastixUnit 1 77 3 (by decide)).1 (by decide)).1 0).2.1,
   (((dispatch_on_arithmetic_type countingEnv freshWorld
      (sampleData PastixFactLU PastixDouble) PastixDirForward 3 1 PastixLeft PastixLower
      PastixNoTrans PastixUnit 1 77 3 (by decide)).1 (by decide)).2
        PastixComplex32 Precision.c rfl).2.2.2,
   (((dispatch_on_arithmetic_type countingEnv freshWorld
      (sampleData PastixFactLU PastixDouble) PastixDirForward 3 1 PastixLeft PastixLower
      PastixNoTrans PastixUnit 1 77 3 (by decide)).2 (by decide) (by decide)).1 0).2,
   (((dispatch_on_arithmetic_type countingEnv freshWorld
      (sampleData PastixFactLU PastixDouble) PastixDirForward 3 1 PastixLeft PastixLower
      PastixNoTrans PastixUnit 1 77 3 (by decide)).2 (by decide) (by decide)).2
        PastixComplex32 Precision.c rfl).2⟩

/-! ## The staging block -/

theorem staging_returns (E : Env R) (w : World R) (pd : pastix_data_t)
    (hon : refine_gpu_requested E pd = true ∧ E.PASTIX_WITH_CUDA = true)
    (dev : gpu_device_t)
    (hdev : resolve_gpu_device E w = some dev) :
    ∃ r, pastix_task_solve_staging E w pd = some r := by
  unfold pastix_task_solve_staging
  rw [if_pos hon]
  simp only [hdev]
  by_cases hv : pd.csc.valuesGPU = 0 <;> by_cases hc : pd.csc.colptrGPU = 0 <;>
    by_cases hr : pd.csc.rowptrGPU = 0 <;>
    simp [hv, hc, hr]

theorem staging_result (E : Env R) (w w1 : World R) (pd pd1 : pastix_data_t)
    (hon : refine_gpu_requested E pd = true ∧ E.PASTIX_WITH_CUDA = true)
    (hrun : pastix_task_solve_staging E w pd = some (pd1, w1)) :
    ∃ dev, resolve_gpu_device E w = some dev ∧
      w1.gpu_device = some dev ∧
      pd1 = { pd with csc := pd1.csc } ∧
      pd1.csc.valuesGPU = (if pd.csc.valuesGPU = 0 then dev.memory.base else pd.csc.valuesGPU) ∧
      pd1.csc.colptrGPU = (if pd.csc.colptrGPU = 0 then
          dev.memory.base + (if pd.csc.valuesGPU = 0 then pd.csc.nnzexp * sizeof_double else 0)
        else pd.csc.colptrGPU) ∧
      pd1.csc.rowptrGPU = (if pd.csc.rowptrGPU = 0 then
          dev.memory.base + (if pd.csc.valuesGPU = 0 then pd.csc.nnzexp * sizeof_double else 0)
            + (if pd.csc.colptrGPU = 0 then (pd.csc.n + 1) * E.sizeof_pastix_int_t else 0)
        else pd.csc.rowptrGPU) ∧
      pd1.csc.n = pd.csc.n ∧ pd1.csc.nnzexp = pd.csc.nnzexp ∧ pd1.csc.values = pd.csc.values ∧
      w1.gpu_base = dev.memory.base
        + (if pd.csc.valuesGPU = 0 then pd.csc.nnzexp * sizeof_double else 0)
        + (if pd.csc.colptrGPU = 0 then (pd.csc.n + 1) * E.sizeof_pastix_int_t else 0)
        + (if pd.csc.rowptrGPU = 0 then pd.csc.nnzexp * E.sizeof_pastix_int_t else 0) ∧
      w1.copies = w.copies ++
        (if pd.csc.valuesGPU = 0 then
          [MemcpyCall.mk pd1.csc.valuesGPU pd.csc.values (pd.csc.nnzexp * sizeof_double)
            pd.streamGPU] else []) ++
        (if pd.csc.colptrGPU = 0 then
          [MemcpyCall.mk pd1.csc.colptrGPU pd.colptrPERM
            ((pd.csc.n + 1) * E.sizeof_pastix_int_t) pd.streamGPU] else []) ++
        (if pd.csc.rowptrGPU = 0 then
          [MemcpyCall.mk pd1.csc.rowptrGPU pd.rowptrPERM
            (pd.csc.nnzexp * E.sizeof_pastix_int_t) pd.streamGPU] else []) := by
  unfold pastix_task_solve_staging at hrun
  rw [if_pos hon] at hrun
  cases hd : resolve_gpu_device E w with
  | none => simp [hd] at hrun
  | some dev =>
    refine ⟨dev, rfl, ?_⟩
    simp only [hd] at hrun
    by_cases hv : pd.csc.valuesGPU = 0 <;> by_cases hc : pd.csc.colptrGPU = 0 <;>
      by_cases hr : pd.csc.rowptrGPU = 0 <;>
      simp [hv, hc, hr] at hrun <;>
      obtain ⟨rfl, rfl⟩ := hrun <;>
      simp [hv, hc, hr]

/-- C8: with the accelerator path on, let the staging block of
pastix_task_solve find a device whose arena has a base address that is not
NULL.  Then a run of the block returns, and it assigns and copies a buffer
exactly when its device pointer was NULL on entry: it issues, in this order,
one host-to-device copy for each of values, column pointers and row pointers
whose device pointer was NULL, towards the pointer it has just assigned, and
keeps the device pointers that were not NULL.  All three device pointers are
set afterwards, and a second run on the same descriptor returns, issues no
copy and leaves valuesGPU, colptrGPU and rowptrGPU as the first run set them;
so from a descriptor with three NULL device pointers the two runs together
issue exactly three copies, one for each buffer. -/
theorem staging_copies_each_buffer_once (E : Env R) (w : World R) (pd : pastix_data_t)
    (dev : gpu_device_t)
    (hon : refine_gpu_requested E pd = true ∧ E.PASTIX_WITH_CUDA = true)
    (hdev : resolve_gpu_device E w = some dev) (hbase : dev.memory.base ≠ 0) :
    ∃ pd1 w1, pastix_task_solve_staging E w pd = some (pd1, w1) ∧
      (w1.copies = w.copies ++
          (if pd.csc.valuesGPU = 0 then
            [MemcpyCall.mk pd1.csc.valuesGPU pd.csc.values (pd.csc.nnzexp * sizeof_double)
              pd.streamGPU] else []) ++
          (if pd.csc.colptrGPU = 0 then
            [MemcpyCall.mk pd1.csc.colptrGPU pd.colptrPERM
              ((pd.csc.n + 1) * E.sizeof_pastix_int_t) pd.streamGPU] else []) ++
          (if pd.csc.rowptrGPU = 0 then
            [MemcpyCall.mk pd1.csc.rowptrGPU pd.rowptrPERM
              (pd.csc.nnzexp * E.sizeof_pastix_int_t) pd.streamGPU] else [])) ∧
      ((pd.csc.valuesGPU ≠ 0 → pd1.csc.valuesGPU = pd.csc.valuesGPU) ∧
        (pd.csc.colptrGPU ≠ 0 → pd1.csc.colptrGPU = pd.csc.colptrGPU) ∧
        (pd.csc.rowptrGPU ≠ 0 → pd1.csc.rowptrGPU = pd.csc.rowptrGPU)) ∧
      (pd1.csc.valuesGPU ≠ 0 ∧ pd1.csc.colptrGPU ≠ 0 ∧ pd1.csc.rowptrGPU ≠ 0) ∧
      (∃ pd2 w2, pastix_task_solve_staging E w1 pd1 = some (pd2, w2) ∧
        w2.copies = w1.copies ∧
        pd2.csc.valuesGPU = pd1.csc.valuesGPU ∧ pd2.csc.colptrGPU = pd1.csc.colptrGPU ∧
        pd2.csc.rowptrGPU = pd1.csc.rowptrGPU ∧
        (pd.csc.valuesGPU = 0 → pd.csc.colptrGPU = 0 → pd.csc.rowptrGPU = 0 →
          w2.copies = w.copies ++
            [MemcpyCall.mk pd1.csc.valuesGPU pd.csc.values (pd.csc.nnzexp * sizeof_double)
              pd.streamGPU,
             MemcpyCall.mk pd1.csc.colptrGPU pd.colptrPERM
              ((pd.csc.n + 1) * E.sizeof_pastix_int_t) pd.streamGPU,
             MemcpyCall.mk pd1.csc.rowptrGPU pd.rowptrPERM
              (pd.csc.nnzexp * E.sizeof_pastix_int_t) pd.streamGPU])) := by
  obtain ⟨⟨pd1, w1⟩, hrun⟩ := staging_returns E w pd hon dev hdev
  obtain ⟨dev', hres, hdev', hpd1, hv, hc, hr, _, _, _, _, hcopies⟩ :=
    staging_result E w w1 pd pd1 hon hrun
  have hdd : dev' = dev := Option.some.inj (hres.symm.trans hdev)
  subst hdd
  have nv : pd1.csc.valuesGPU ≠ 0 := by
    rw [hv]; split_ifs with h
    · exact hbase
    · exact h
  have nc : pd1.csc.colptrGPU ≠ 0 := by
    rw [hc]; split_ifs <;> omega
  have nr : pd1.csc.rowptrGPU ≠ 0 := by
    rw [hr]; split_ifs <;> omega
  have hon1 : refine_gpu_requested E pd1 = true ∧ E.PASTIX_WITH_CUDA = true := by
    refine ⟨?_, hon.2⟩
    have h := hon.1
    rw [hpd1]
    simpa [refine_gpu_requested] using h
  have hdev1 : resolve_gpu_device E w1 = some dev' := by
    simp [resolve_gpu_device, hdev']
  obtain ⟨⟨pd2, w2⟩, hrun2⟩ := staging_returns E w1 pd1 hon1 dev' hdev1
  obtain ⟨_, _, _, _, hv2, hc2, hr2, _, _, _, _, hcopies2⟩ :=
    staging_result E w1 w2 pd1 pd2 hon1 hrun2
  have hsame : w2.copies = w1.copies := by
    rw [hcopies2]; simp [nv, nc, nr]
  refine ⟨pd1, w1, hrun, hcopies, ⟨fun h => by rw [hv, if_neg h], fun h => by rw [hc, if_neg h],
    fun h => by rw [hr, if_neg h]⟩, ⟨nv, nc, nr⟩, pd2, w2, hrun2, hsame, ?_, ?_, ?_, ?_⟩
  · rw [hv2, if_neg nv]
  · rw [hc2, if_neg nc]
  · rw [hr2, if_neg nr]
  · intro h1 h2 h3
    rw [hsame, hcopies]
    simp [h1, h2, h3]

/-- Witness of C8: on the sample accelerator instance the block finds the
device of base 4096; the first run stages the three buffers and the second
run issues no copy. -/
theorem staging_copies_each_buffer_once_witness :
    ((refine_gpu_requested countingEnv gpuData = true ∧
        countingEnv.PASTIX_WITH_CUDA = true) ∧
      resolve_gpu_device countingEnv freshWorld
        = some (gpu_device_t.mk (zone_malloc_t.mk 4096)) ∧
      (gpu_device_t.mk (zone_malloc_t.mk 4096)).memory.base ≠ 0) ∧
    ∃ pd1 w1, pastix_task_solve_staging countingEnv freshWorld gpuData = some (pd1, w1) ∧
      (pd1.csc.valuesGPU ≠ 0 ∧ pd1.csc.colptrGPU ≠ 0 ∧ pd1.csc.rowptrGPU ≠ 0) :=
  ⟨⟨⟨by decide, rfl⟩, by decide, by decide⟩,
   (staging_copies_each_buffer_once countingEnv freshWorld gpuData
      (gpu_device_t.mk (zone_malloc_t.mk 4096)) ⟨by decide, rfl⟩ (by decide)
      (by decide)).imp (fun _ h => h.imp (fun _ h => ⟨h.1, h.2.2.2.1⟩))⟩

/-! ## Defects -/

/-- C9: the code at a failing input.  Every run of the staging block first
resets gpu_base to the base of the arena.  On the sample accelerator instance
the first run moves gpu_base from NULL to 4172, not by the 76 bytes it stages;
a second run on the same descriptor stages nothing and moves gpu_base down
from 4172 to 4096; a run on another descriptor hands out 4096 again, the
address of the values buffer of the first descriptor, 40 bytes long. -/
theorem staging_resets_arena_offset :
    pastix_task_solve_staging countingEnv freshWorld gpuData
      = some (stagedData, stagedWorld) ∧
    (freshWorld.gpu_base = 0 ∧ stagedWorld.gpu_base = 4172 ∧
      gpuData.csc.nnzexp * sizeof_double
        + (gpuData.csc.n + 1) * countingEnv.sizeof_pastix_int_t
        + gpuData.csc.nnzexp * countingEnv.sizeof_pastix_int_t = 76) ∧
    (pastix_task_solve_staging countingEnv stagedWorld stagedData).map
      (fun r => (r.2.gpu_base, r.2.copies.length)) = some (4096, 3) ∧
    (stagedData.csc.valuesGPU = 4096 ∧ stagedData.csc.nnzexp * sizeof_double = 40 ∧
      (pastix_task_solve_staging countingEnv stagedWorld otherGpuData).map
        (fun r => (r.1.csc.valuesGPU, r.1.csc.nnzexp * sizeof_double, r.2.gpu_base))
        = some (4096, 32, 4156)) :=
  ⟨rfl, ⟨rfl, rfl, rfl⟩, rfl, ⟨rfl, rfl, rfl⟩⟩

/-- C4: the code at a failing input.  On the sample instance before the
numerical factorization pastix_subtask_solve, called in the course of
pastix_task_solve, returns PASTIX_ERR_BADPARAMETER, yet pastix_task_solve
returns EXIT_SUCCESS, after running the forward and the backward permutation
kernel on the block. -/
theorem task_solve_discards_statuses :
    unfactoredData.steps &&& STEP_NUMFACT = 0 ∧
    (pastix_subtask_solve countingEnv
        (pastix_subtask_applyorder countingEnv freshWorld (some unfactoredData) PastixDouble
          PastixDirForward 3 1 77 3).2
        (some unfactoredData) 1 77 3).1 = PASTIX_ERR_BADPARAMETER ∧
    (pastix_task_solve countingEnv freshWorld (some unfactoredData) 1 77 3).map
        (fun r => (r.1, r.2.2.kernels, r.2.2.rhs)) =
      some (EXIT_SUCCESS,
        [KernelCall.lapmr Precision.d 1 PastixDirForward 3 1 77 3 [2, 0, 1],
         KernelCall.lapmr Precision.d 1 PastixDirBackward 3 1 77 3 [2, 0, 1]],
        2) ∧
    EXIT_SUCCESS ≠ PASTIX_ERR_BADPARAMETER ∧ freshWorld.rhs = 0 :=
  ⟨by decide, by decide, by decide, by decide, rfl⟩

/-- C10: the code at a failing input.  On the sample instance, factorized,
pastix_subtask_solve called with a NULL b runs no kernel but returns
EXIT_SUCCESS, not PASTIX_ERR_BADPARAMETER, and overwrites the solve time, 0
before the call, with the measured time 42. -/
theorem subtask_solve_accepts_null_rhs :
    (sampleData PastixFactLU PastixDouble).steps &&& STEP_NUMFACT ≠ 0 ∧
    (pastix_subtask_solve countingEnv freshWorld (some (sampleData PastixFactLU PastixDouble))
        1 0 3).1 = EXIT_SUCCESS ∧
    (pastix_subtask_solve countingEnv freshWorld (some (sampleData PastixFactLU PastixDouble))
        1 0 3).1 ≠ PASTIX_ERR_BADPARAMETER ∧
    (sampleData PastixFactLU PastixDouble).dparm_SOLV_TIME = 0 ∧
    (pastix_subtask_solve countingEnv freshWorld (some (sampleData PastixFactLU PastixDouble))
        1 0 3).2.1.map (fun pd => pd.dparm_SOLV_TIME) = some 42 ∧
    (pastix_subtask_solve countingEnv freshWorld (some (sampleData PastixFactLU PastixDouble))
        1 0 3).2.2.kernels = [] :=
  ⟨by decide, by decide, by decide, rfl, by decide, by decide⟩

/-! ## A factorization value outside the five kinds -/

/-- C11: on an instance whose step mask contains STEP_NUMFACT and whose
iparm[IPARM_FACTORIZATION] is none of the five factorization kinds,
pastix_subtask_solve does not fail: it calls exactly trsm(Left, Lower,
NoTrans, Unit) then trsm(Left, Upper, NoTrans, NonUnit), with the arithmetic
type of the bcsc and the nrhs, b and ldb of the caller, and returns success;
its recorded calls, its kernel calls and its status are those of the same
instance with PastixFactLU. -/
theorem unrecognized_factorization_solves_as_LU (E : Env R) (w : World R)
    (pd : pastix_data_t) (tag : Int) (nrhs : Int) (b : Nat) (ldb : Int)
    (h : pd.steps &&& STEP_NUMFACT ≠ 0) :
    (pastix_subtask_solve E w
        (some { pd with iparm_FACTORIZATION := pastix_factotype_t.unrecognized tag })
        nrhs b ldb).2.2.subcalls = w.subcalls ++
      [SubCall.trsm pd.bcsc.flttype PastixLeft PastixLower PastixNoTrans PastixUnit nrhs b ldb,
       SubCall.trsm pd.bcsc.flttype PastixLeft PastixUpper PastixNoTrans PastixNonUnit
         nrhs b ldb] ∧
    (pastix_subtask_solve E w
        (some { pd with iparm_FACTORIZATION := pastix_factotype_t.unrecognized tag })
        nrhs b ldb).1 = PASTIX_SUCCESS ∧
    (pastix_subtask_solve E w
        (some { pd with iparm_FACTORIZATION := pastix_factotype_t.unrecognized tag })
        nrhs b ldb).2.2.subcalls =
      (pastix_subtask_solve E w (some { pd with iparm_FACTORIZATION := PastixFactLU })
        nrhs b ldb).2.2.subcalls ∧
    (pastix_subtask_solve E w
        (some { pd with iparm_FACTORIZATION := pastix_factotype_t.unrecognized tag })
        nrhs b ldb).2.2.kernels =
      (pastix_subtask_solve E w (some { pd with iparm_FACTORIZATION := PastixFactLU })
        nrhs b ldb).2.2.kernels ∧
    (pastix_subtask_solve E w
        (some { pd with iparm_FACTORIZATION := pastix_factotype_t.unrecognized tag })
        nrhs b ldb).1 =
      (pastix_subtask_solve E w (some { pd with iparm_FACTORIZATION := PastixFactLU })
        nrhs b ldb).1 := by
  refine ⟨?_, ?_, ?_, ?_, ?_⟩
  · rw [subtask_solve_subcalls _ _ _ _ _ _ (by exact h)]; rfl
  · rw [subtask_solve_status_eq]
    simp only [h, if_false]
    rfl
  · rw [subtask_solve_subcalls _ _ _ _ _ _ (by exact h),
      subtask_solve_subcalls _ _ _ _ _ _ (by exact h)]
    rfl
  · rw [subtask_solve_kernels _ _ _ _ _ _ (by exact h),
      subtask_solve_kernels _ _ _ _ _ _ (by exact h)]
    dsimp only [solve_block_LU]
    refine trsm_kernels_congr E _ _ _ _ _ _ _ _ _ _ _ _ _ ?_ rfl rfl (Or.inl rfl)
    exact trsm_kernels_congr E _ _ _ _ _ _ _ _ _ _ _ _ _ rfl rfl rfl (Or.inl rfl)
  · simp only [subtask_solve_status_eq]

/-- Witness of C11 on the sample instance with the factorization value 99. -/
theorem unrecognized_factorization_solves_as_LU_witness :
    (sampleData PastixFactLU PastixDouble).steps &&& STEP_NUMFACT ≠ 0 ∧
    (pastix_subtask_solve countingEnv freshWorld
        (some (sampleData (pastix_factotype_t.unrecognized 99) PastixDouble))
        1 77 3).2.2.subcalls =
      [SubCall.trsm PastixDouble PastixLeft PastixLower PastixNoTrans PastixUnit 1 77 3,
       SubCall.trsm PastixDouble PastixLeft PastixUpper PastixNoTrans PastixNonUnit 1 77 3] ∧
    (pastix_subtask_solve countingEnv freshWorld
        (some (sampleData (pastix_factotype_t.unrecognized 99) PastixDouble))
        1 77 3).1 = PASTIX_SUCCESS :=
  ⟨by decide,
   (unrecognized_factorization_solves_as_LU countingEnv freshWorld
      (sampleData PastixFactLU PastixDouble) 99 1 77 3 (by decide)).1,
   (unrecognized_factorization_solves_as_LU countingEnv freshWorld
      (sampleData PastixFactLU PastixDouble) 99 1 77 3 (by decide)).2.1⟩

end Pastix
